import Mathlib

/-!
# libdlna: media profile identification

A shallow embedding of the AAC family classifier of `audio_aac.c`
(`aac_object_type_get`, `audio_profile_guess_aac`, `probe_mpeg4`) and of the
MPEG-2 family classifier of `av_mpeg2.c` (resolution tables, audio validators,
`probe_mpeg_ps_es`, `probe_mpeg_ts`, `probe_mpeg2`) and of the service lookup of
`upnp.c` (`upnp_find_service_action`), together with the data they work on,
followed by the properties proved about them.

Conventions of the embedding:
* C `int` fields are `Int`; a byte (`uint8_t`) is `Fin 256`;
* a pointer that may be `NULL` is an `Option`;
* enumerations are inductive types, so distinct enumerators are distinct;
  where the code tests the integer value of an enumerator declared outside the
  available sources, that value is a parameter of the function.
-/

namespace Libdlna

/-! ## Data model -/

/-- One byte, the C type `uint8_t`. -/
abbrev uint8_t := Fin 256

/-- Codec identifiers (`enum CodecID` of the external prober). The constructors
are the identifiers the sources name; `CODEC_ID_OTHER n` stands for every other
identifier of the prober. -/
inductive CodecID where
  | CODEC_ID_AAC
  | CODEC_ID_AC3
  | CODEC_ID_MP2
  | CODEC_ID_MP3
  | CODEC_ID_MPEG2VIDEO
  | CODEC_ID_PCM_S16BE
  | CODEC_ID_PCM_S16LE
  | CODEC_ID_OTHER (n : Nat)
  deriving DecidableEq, Repr

/-- Codec context of one elementary stream (`AVCodecContext` of the external
prober), restricted to the fields the sources read. `extradata` is the codec
configuration buffer (`NULL` or its bytes) and `extradata_size` the length the
prober reports for it. -/
structure AVCodecContext where
  codec_id : CodecID
  sample_rate : Int
  channels : Int
  bit_rate : Int
  extradata : Option (List uint8_t) := none
  extradata_size : Int := 0
  width : Int := 0
  height : Int := 0
  deriving DecidableEq, Repr

/-- Container kinds (`dlna_container_type_t`, declared in containers.h). The
constructors are the enumerators the sources name; `CT_OTHER n` stands for the
remaining enumerators of the declaration. -/
inductive dlna_container_type_t where
  | CT_UNKNOWN
  | CT_MPEG_ELEMENTARY_STREAM
  | CT_MPEG_PROGRAM_STREAM
  | CT_MPEG_TRANSPORT_STREAM
  | CT_MPEG_TRANSPORT_STREAM_DLNA
  | CT_MPEG_TRANSPORT_STREAM_DLNA_NO_TS
  | CT_OTHER (n : Nat)
  deriving DecidableEq, Repr

/-- Audio profile classes (`audio_profile_t`, declared in profiles.h): the
enumerators that `audio_aac.c` names. -/
inductive audio_profile_t where
  | AUDIO_PROFILE_INVALID
  | AUDIO_PROFILE_AAC
  | AUDIO_PROFILE_AAC_MULT5
  | AUDIO_PROFILE_AAC_LTP_MULT7
  deriving DecidableEq, Repr

/-- Media classes, `dlna_media_class_t` of dlna.h. -/
inductive dlna_media_class_t where
  | DLNA_CLASS_UNKNOWN
  | DLNA_CLASS_IMAGE
  | DLNA_CLASS_AUDIO
  | DLNA_CLASS_AV
  | DLNA_CLASS_COLLECTION
  deriving DecidableEq, Repr

/-- A `const char *` of a profile record: `NULL`, a string literal, or a macro
of profiles.h (kept by name, its expansion is not part of the sources). -/
inductive c_string where
  | NULL
  | literal (s : String)
  | profiles_h (name : String)
  deriving DecidableEq, Repr

/-- A DLNA profile record, `dlna_profile_t` of dlna.h. -/
structure dlna_profile_t where
  id : String
  mime : c_string
  label : c_string
  media_class : dlna_media_class_t := dlna_media_class_t.DLNA_CLASS_UNKNOWN
  deriving DecidableEq, Repr

/-- A rational number of the prober, `AVRational`. -/
structure AVRational where
  num : Int
  den : Int
  deriving DecidableEq, Repr

/-- One stream of the prober (`AVStream`), restricted to what the sources reach
through it: its frame rate `r_frame_rate` and its codec context `codec`. -/
structure AVStream where
  r_frame_rate : AVRational
  codec : AVCodecContext
  deriving DecidableEq, Repr

/-- Stream descriptor handed to a family classifier (`AVFormatContext` of the
external prober), as far as the classifiers read it: the container kind that
`stream_get_container` reports, the audio codec context that
`audio_profile_get_codec` finds, if any, the video stream, if any, the overall
bit rate `bit_rate` and the file name. -/
structure AVFormatContext where
  container : dlna_container_type_t
  audio : Option AVCodecContext
  video : Option AVStream := none
  bit_rate : Int := 0
  filename : String := ""
  deriving DecidableEq, Repr

/-- The audio and video codecs of a descriptor, `av_codecs_t` of profiles.h,
restricted to the members the sources read: the audio codec context `ac`, the
video stream `vs` and the video codec context `vc`. -/
structure av_codecs_t where
  ac : AVCodecContext
  vs : AVStream
  vc : AVCodecContext
  deriving DecidableEq, Repr

/-- A row of the program/elementary stream tables, `mpeg_ps_es_stream_t`. -/
structure mpeg_ps_es_stream_t where
  width : Int
  height : Int
  deriving DecidableEq, Repr

/-- A row of the transport stream tables, `mpeg_ts_stream_t`. -/
structure mpeg_ts_stream_t where
  width : Int
  height : Int
  fps_num : Int
  fps_den : Int
  deriving DecidableEq, Repr

open CodecID dlna_container_type_t audio_profile_t dlna_media_class_t

def MIME_AUDIO_ADTS : c_string := c_string.profiles_h "MIME_AUDIO_ADTS"

def MIME_AUDIO_MPEG_4 : c_string := c_string.profiles_h "MIME_AUDIO_MPEG_4"

def LABEL_AUDIO_2CH : c_string := c_string.profiles_h "LABEL_AUDIO_2CH"

def LABEL_AUDIO_MULTI : c_string := c_string.profiles_h "LABEL_AUDIO_MULTI"

/-! ## Profile records of `audio_aac.c`

The initialisers set `id`, `mime` and `label`; `media_class` is left to its
static zero value, `DLNA_CLASS_UNKNOWN`. -/

def aac_adts : dlna_profile_t :=
  { id := "AAC_ADTS", mime := MIME_AUDIO_ADTS, label := LABEL_AUDIO_2CH }

def aac_adts_320 : dlna_profile_t :=
  { id := "AAC_ADTS_320", mime := MIME_AUDIO_ADTS, label := LABEL_AUDIO_2CH }

def aac_iso : dlna_profile_t :=
  { id := "AAC_ISO", mime := MIME_AUDIO_MPEG_4, label := LABEL_AUDIO_2CH }

def aac_iso_320 : dlna_profile_t :=
  { id := "AAC_ISO_320", mime := MIME_AUDIO_MPEG_4, label := LABEL_AUDIO_2CH }

def aac_ltp_iso : dlna_profile_t :=
  { id := "AAC_LTP_ISO", mime := c_string.NULL, label := LABEL_AUDIO_2CH }

def aac_ltp_mult5_iso : dlna_profile_t :=
  { id := "AAC_LTP_MULT5_ISO", mime := c_string.NULL, label := LABEL_AUDIO_MULTI }

def aac_ltp_mult7_iso : dlna_profile_t :=
  { id := "AAC_LTP_MULT7_ISO", mime := c_string.NULL, label := LABEL_AUDIO_MULTI }

def aac_mult5_adts : dlna_profile_t :=
  { id := "AAC_MULT5_ADTS", mime := MIME_AUDIO_ADTS, label := LABEL_AUDIO_MULTI }

def aac_mult5_iso : dlna_profile_t :=
  { id := "AAC_MULT5_ISO", mime := MIME_AUDIO_MPEG_4, label := LABEL_AUDIO_MULTI }

def heaac_l2_adts : dlna_profile_t :=
  { id := "HEAAC_L2_ADTS", mime := MIME_AUDIO_ADTS, label := LABEL_AUDIO_2CH }

def heaac_l2_iso : dlna_profile_t :=
  { id := "HEAAC_L2_ISO", mime := c_string.NULL, label := LABEL_AUDIO_2CH }

def heaac_l3_adts : dlna_profile_t :=
  { id := "HEAAC_L3_ADTS", mime := MIME_AUDIO_ADTS, label := LABEL_AUDIO_2CH }

def heaac_l3_iso : dlna_profile_t :=
  { id := "HEAAC_L3_ISO", mime := c_string.NULL, label := LABEL_AUDIO_2CH }

def heaac_mult5_adts : dlna_profile_t :=
  { id := "HEAAC_MULT5_ADTS", mime := MIME_AUDIO_ADTS, label := LABEL_AUDIO_MULTI }

def heaac_mult5_iso : dlna_profile_t :=
  { id := "HEAAC_MULT5_ISO", mime := c_string.NULL, label := LABEL_AUDIO_MULTI }

def heaac_l2_adts_320 : dlna_profile_t :=
  { id := "HEAAC_L2_ADTS_320", mime := MIME_AUDIO_ADTS, label := LABEL_AUDIO_2CH }

def heaac_l2_iso_320 : dlna_profile_t :=
  { id := "HEAAC_L2_ISO_320", mime := c_string.NULL, label := LABEL_AUDIO_2CH }

def bsac_iso : dlna_profile_t :=
  { id := "BSAC_ISO", mime := c_string.NULL, label := LABEL_AUDIO_2CH }

def bsac_mult5_iso : dlna_profile_t :=
  { id := "BSAC_MULT5_ISO", mime := c_string.NULL, label := LABEL_AUDIO_MULTI }

/-! ## Helpers declared in profiles.h and containers.h -/

/-- Modelled from the spec: `stream_get_container` (containers.h, its body is
not among the sources) reports the `container` kind of the descriptor. -/
def stream_get_container (ctx : AVFormatContext) : dlna_container_type_t :=
  ctx.container

/-- Modelled from the spec: `audio_profile_get_codec` (profiles.h, its body is
not among the sources) yields the optional `audio` stream of the descriptor,
`NULL` when the descriptor has no audio stream. -/
def audio_profile_get_codec (ctx : AVFormatContext) : Option AVCodecContext :=
  ctx.audio

/-- Modelled from the spec: `set_profile` (profiles.h, its body is not among
the sources) hands the chosen catalog record to the caller, who receives "a
reference/handle, never a copy-and-mutate": the result is the record as the
catalog holds it, every field unchanged. -/
def set_profile (profile : dlna_profile_t) : Option dlna_profile_t :=
  some profile

/-! ## `audio_aac.c` -/

/-- Enumerator `AAC_MUXED` of `aac_container_type_t`: first enumerator, value 0. -/
def AAC_MUXED : Int := 0

/-- Enumerator `AAC_RAW` of `aac_container_type_t`: second enumerator, value 1. -/
def AAC_RAW : Int := 1

/-- Enumerator `AAC_INVALID = 0` of `aac_object_type_t`. -/
def AAC_INVALID : Nat := 0

/-- The function `aac_object_type_get (uint8_t *data, int len)`.

`t` starts as `AAC_INVALID`; when `data` is `NULL` or `len < 1` it is returned
as is, otherwise `t = data[0] >> 3` (stored in a `uint8_t`, hence `% 256`).
The result is the integer value of the returned `aac_object_type_t`; `none`
stands for the read of `data[0]` from a buffer that holds no byte. -/
def aac_object_type_get (data : Option (List uint8_t)) (len : Int) : Option Nat :=
  match data with
  | none => some AAC_INVALID
  | some bytes =>
    if len < 1 then some AAC_INVALID
    else
      match bytes with
      | [] => none
      | b :: _ => some ((b.val >>> 3) % 256)

/-- The function `audio_profile_guess_aac (AVCodecContext *ac)`.

The object type read by `aac_object_type_get` is stored in the local `type`
and never read again, so it does not appear in the result. -/
def audio_profile_guess_aac (ac : Option AVCodecContext) : audio_profile_t :=
  match ac with
  | none => AUDIO_PROFILE_INVALID
  | some ac =>
    let _type := aac_object_type_get ac.extradata ac.extradata_size
    if ac.codec_id ≠ CODEC_ID_AAC then AUDIO_PROFILE_INVALID
    else if ac.sample_rate ≠ 8000 ∧
        ac.sample_rate ≠ 11025 ∧
        ac.sample_rate ≠ 12000 ∧
        ac.sample_rate ≠ 16000 ∧
        ac.sample_rate ≠ 22050 ∧
        ac.sample_rate ≠ 24000 ∧
        ac.sample_rate ≠ 32000 ∧
        ac.sample_rate ≠ 44100 ∧
        ac.sample_rate ≠ 48000 then AUDIO_PROFILE_INVALID
    else if ac.channels = 1 ∨ ac.channels = 2 then
      if ac.bit_rate ≤ 576000 then AUDIO_PROFILE_AAC else AUDIO_PROFILE_INVALID
    else if ac.channels = 5 then
      if ac.bit_rate ≤ 1444000 then AUDIO_PROFILE_AAC_MULT5 else AUDIO_PROFILE_INVALID
    else if ac.channels = 7 then AUDIO_PROFILE_AAC_LTP_MULT7
    else AUDIO_PROFILE_INVALID

/-- The function `probe_mpeg4 (AVFormatContext *ctx)`.

`v_AUDIO_PROFILE_AAC` is the integer value of the enumerator
`AUDIO_PROFILE_AAC` (declared in profiles.h, not among the sources): the
second test of the chain is `else if (AUDIO_PROFILE_AAC)`, a test of that
constant and not of `ap`. -/
def probe_mpeg4 (v_AUDIO_PROFILE_AAC : Int) (ctx : AVFormatContext) :
    Option dlna_profile_t :=
  let adts : Int := if stream_get_container ctx = CT_UNKNOWN then AAC_RAW else AAC_MUXED
  match audio_profile_get_codec ctx with
  | none => none
  | some codec =>
    let ap := audio_profile_guess_aac (some codec)
    if ap = AUDIO_PROFILE_INVALID then none
    else if codec.codec_id = CODEC_ID_AAC then
      if ap = AUDIO_PROFILE_AAC_MULT5 then
        if adts ≠ 0 then set_profile aac_mult5_adts
        else set_profile aac_mult5_iso
      else if v_AUDIO_PROFILE_AAC ≠ 0 then
        if adts ≠ 0 then set_profile aac_adts_320
        else set_profile aac_iso_320
      else
        if adts ≠ 0 then set_profile aac_adts
        else set_profile aac_iso
    else none

/-! ## `av_mpeg2.c`: tables and profile records -/

def MPEG2_KNOWN_EXTENSIONS : String := "mpg,mpeg,mpe,m2v,mp2p,mp2t,ts,ps,pes"

def MPEG2_MIME_TYPE : c_string := c_string.literal "video/mpeg"

def MPEG2_TS_DLNA_MIME_TYPE : c_string := c_string.literal "video/vnd.dlna.mpeg-tts"

def MPEG2_LABEL_CIF30 : c_string := c_string.literal "CIF30"

def MPEG2_LABEL_SD : c_string := c_string.literal "SD"

def MPEG2_LABEL_HD : c_string := c_string.literal "HD"

def mpeg_ps_es_valid_streams_ntsc : List mpeg_ps_es_stream_t :=
  [ ⟨720, 480⟩,
    ⟨704, 480⟩,
    ⟨544, 480⟩,
    ⟨480, 480⟩,
    ⟨352, 480⟩,
    ⟨352, 240⟩ ]

def mpeg_ps_es_valid_streams_pal : List mpeg_ps_es_stream_t :=
  [ ⟨720, 576⟩,
    ⟨704, 576⟩,
    ⟨544, 576⟩,
    ⟨480, 576⟩,
    ⟨352, 576⟩,
    ⟨352, 288⟩ ]

def mpeg_ts_valid_streams_eu_sd : List mpeg_ts_stream_t :=
  [ ⟨720, 576, 25, 1⟩,
    ⟨544, 576, 25, 1⟩,
    ⟨480, 576, 25, 1⟩,
    ⟨352, 576, 25, 1⟩,
    ⟨252, 288, 25, 1⟩ ]

def mpeg_ts_valid_streams_na_sd : List mpeg_ts_stream_t :=
  [ ⟨720, 480, 30, 1001⟩,
    ⟨704, 480, 30, 1001⟩,
    ⟨704, 480, 30, 1⟩,
    ⟨704, 480, 24, 1001⟩,
    ⟨704, 480, 24, 1⟩,
    ⟨640, 480, 30, 1001⟩,
    ⟨640, 480, 30, 1⟩,
    ⟨640, 480, 24, 1001⟩,
    ⟨640, 480, 24, 1⟩,
    ⟨544, 480, 30, 1001⟩,
    ⟨480, 480, 30, 1001⟩,
    ⟨352, 480, 30, 1001⟩ ]

def mpeg_ts_valid_streams_na_hd : List mpeg_ts_stream_t :=
  [ ⟨1920, 1080, 30, 1001⟩,
    ⟨1920, 1080, 30, 1⟩,
    ⟨1920, 1080, 24, 1001⟩,
    ⟨1920, 1080, 24, 1⟩,
    ⟨1280, 720, 30, 1001⟩,
    ⟨1280, 720, 30, 1⟩,
    ⟨1280, 720, 24, 1001⟩,
    ⟨1280, 720, 24, 1⟩,
    ⟨1440, 1080, 30, 1001⟩,
    ⟨1440, 1080, 30, 1⟩,
    ⟨1440, 1080, 24, 1001⟩,
    ⟨1440, 1080, 24, 1⟩,
    ⟨1280, 1080, 30, 1001⟩,
    ⟨1280, 1080, 30, 1⟩,
    ⟨1280, 1080, 24, 1001⟩,
    ⟨1280, 1080, 24, 1⟩ ]

def mpeg_ps_ntsc : dlna_profile_t :=
  { id := "MPEG_PS_NTSC", mime := MPEG2_MIME_TYPE, label := MPEG2_LABEL_SD }

def mpeg_ps_ntsc_xac3 : dlna_profile_t :=
  { id := "MPEG_PS_NTSC_XAC3", mime := MPEG2_MIME_TYPE, label := MPEG2_LABEL_SD }

def mpeg_ps_pal : dlna_profile_t :=
  { id := "MPEG_PS_PAL", mime := MPEG2_MIME_TYPE, label := MPEG2_LABEL_SD }

def mpeg_ps_pal_xac3 : dlna_profile_t :=
  { id := "MPEG_PS_PAL_XAC3", mime := MPEG2_MIME_TYPE, label := MPEG2_LABEL_SD }

def mpeg_ts_mp_ll_aac : dlna_profile_t :=
  { id := "MPEG_TS_MP_LL_AAC", mime := MPEG2_TS_DLNA_MIME_TYPE, label := MPEG2_LABEL_CIF30 }

def mpeg_ts_mp_ll_aac_t : dlna_profile_t :=
  { id := "MPEG_TS_MP_LL_AAC_T", mime := MPEG2_TS_DLNA_MIME_TYPE,
    label := MPEG2_LABEL_CIF30 }

def mpeg_ts_mp_ll_aac_iso : dlna_profile_t :=
  { id := "MPEG_TS_MP_LL_AAC_ISO", mime := MPEG2_MIME_TYPE, label := MPEG2_LABEL_CIF30 }

def mpeg_ts_sd_eu : dlna_profile_t :=
  { id := "MPEG_TS_SD_EU", mime := MPEG2_TS_DLNA_MIME_TYPE, label := MPEG2_LABEL_SD }

def mpeg_ts_sd_eu_t : dlna_profile_t :=
  { id := "MPEG_TS_SD_EU_T", mime := MPEG2_TS_DLNA_MIME_TYPE, label := MPEG2_LABEL_SD }

def mpeg_ts_sd_eu_iso : dlna_profile_t :=
  { id := "MPEG_TS_SD_EU_ISO", mime := MPEG2_MIME_TYPE, label := MPEG2_LABEL_SD }

def mpeg_ts_sd_na : dlna_profile_t :=
  { id := "MPEG_TS_SD_NA", mime := MPEG2_TS_DLNA_MIME_TYPE, label := MPEG2_LABEL_SD }

def mpeg_ts_sd_na_t : dlna_profile_t :=
  { id := "MPEG_TS_SD_NA_T", mime := MPEG2_TS_DLNA_MIME_TYPE, label := MPEG2_LABEL_SD }

def mpeg_ts_sd_na_iso : dlna_profile_t :=
  { id := "MPEG_TS_SD_NA_ISO", mime := MPEG2_MIME_TYPE, label := MPEG2_LABEL_SD }

def mpeg_ts_sd_na_xac3 : dlna_profile_t :=
  { id := "MPEG_TS_SD_NA_XAC3", mime := MPEG2_TS_DLNA_MIME_TYPE, label := MPEG2_LABEL_SD }

def mpeg_ts_sd_na_xac3_t : dlna_profile_t :=
  { id := "MPEG_TS_SD_NA_XAC3_T", mime := MPEG2_TS_DLNA_MIME_TYPE, label := MPEG2_LABEL_SD }

def mpeg_ts_sd_na_xac3_iso : dlna_profile_t :=
  { id := "MPEG_TS_SD_NA_XAC3_ISO", mime := MPEG2_MIME_TYPE, label := MPEG2_LABEL_SD }

def mpeg_ts_hd_na : dlna_profile_t :=
  { id := "MPEG_TS_HD_NA", mime := MPEG2_TS_DLNA_MIME_TYPE, label := MPEG2_LABEL_HD }

def mpeg_ts_hd_na_t : dlna_profile_t :=
  { id := "MPEG_TS_HD_NA_T", mime := MPEG2_TS_DLNA_MIME_TYPE, label := MPEG2_LABEL_HD }

def mpeg_ts_hd_na_iso : dlna_profile_t :=
  { id := "MPEG_TS_HD_NA_ISO", mime := MPEG2_MIME_TYPE, label := MPEG2_LABEL_HD }

def mpeg_ts_hd_na_xac3 : dlna_profile_t :=
  { id := "MPEG_TS_HD_NA_XAC3", mime := MPEG2_TS_DLNA_MIME_TYPE, label := MPEG2_LABEL_HD }

def mpeg_ts_hd_na_xac3_t : dlna_profile_t :=
  { id := "MPEG_TS_HD_NA_XAC3_T", mime := MPEG2_TS_DLNA_MIME_TYPE, label := MPEG2_LABEL_HD }

def mpeg_ts_hd_na_xac3_iso : dlna_profile_t :=
  { id := "MPEG_TS_HD_NA_XAC3_ISO", mime := MPEG2_MIME_TYPE, label := MPEG2_LABEL_HD }

def mpeg_es_pal : dlna_profile_t :=
  { id := "MPEG_ES_PAL", mime := MPEG2_MIME_TYPE, label := MPEG2_LABEL_SD }

def mpeg_es_ntsc : dlna_profile_t :=
  { id := "MPEG_ES_NTSC", mime := MPEG2_MIME_TYPE, label := MPEG2_LABEL_SD }

def mpeg_es_pal_xac3 : dlna_profile_t :=
  { id := "MPEG_ES_PAL_XAC3", mime := MPEG2_MIME_TYPE, label := MPEG2_LABEL_SD }

def mpeg_es_ntsc_xac3 : dlna_profile_t :=
  { id := "MPEG_ES_NTSC_XAC3", mime := MPEG2_MIME_TYPE, label := MPEG2_LABEL_SD }

/-! ## `av_mpeg2.c`: helpers declared in profiles.h -/

/-- The text after the last dot of a file name, if the name has a dot. -/
def file_extension : List Char → Option (List Char)
  | [] => none
  | c :: cs =>
    match file_extension cs with
    | some e => some e
    | none => if c = '.' then some cs else none

/-- The entries of a comma-separated list of extensions. -/
def extension_entries : List Char → List (List Char)
  | [] => [[]]
  | c :: cs =>
    if c = ',' then [] :: extension_entries cs
    else
      match extension_entries cs with
      | [] => [[c]]
      | e :: es => (c :: e) :: es

/-- Modelled from the spec: `match_file_extension` (profiles.h, its body is not
among the sources) checks the file extension of the descriptor, a lowercase
string, against the comma-separated allow-list of the family ("extension
allow-list per family"); a name without extension is not accepted. -/
def match_file_extension (filename : String) (extensions : String) : Bool :=
  match file_extension filename.toList with
  | none => false
  | some e => decide (e ∈ extension_entries extensions.toList)

/-- Modelled from the spec: `av_profile_get_codecs` (profiles.h, its body is not
among the sources) yields the audio/video codec pair of the descriptor, and
`NULL` when the descriptor lacks the audio stream or the video stream ("an
absent codec stream (no audio or no video where required) is treated as does
not match"). -/
def av_profile_get_codecs (ctx : AVFormatContext) : Option av_codecs_t :=
  match ctx.audio, ctx.video with
  | some ac, some vs => some { ac := ac, vs := vs, vc := vs.codec }
  | _, _ => none

/-! ## `av_mpeg2.c`: audio validators

Each validator returns the C `int` 1 (accept) or 0 (reject). -/

/-- The function `is_mpeg_ps_es_audio_stream_lpcm`. -/
def is_mpeg_ps_es_audio_stream_lpcm (_ctx : AVFormatContext) (codecs : av_codecs_t) : Int :=
  if codecs.ac.codec_id ≠ CODEC_ID_PCM_S16BE ∧
      codecs.ac.codec_id ≠ CODEC_ID_PCM_S16LE then 0
  else if codecs.ac.sample_rate ≠ 48000 then 0
  else if codecs.ac.channels > 2 then 0
  else if codecs.ac.channels = 2 ∧ codecs.ac.bit_rate > 1536000 then 0
  else if codecs.ac.channels = 1 ∧ codecs.ac.bit_rate > 768000 then 0
  else 1

/-- The function `common_ac3_check`. -/
def common_ac3_check (_ctx : AVFormatContext) (codecs : av_codecs_t) : Int :=
  if codecs.ac.codec_id ≠ CODEC_ID_AC3 then 0
  else if codecs.ac.sample_rate ≠ 48000 then 0
  else if codecs.ac.channels > 5 then 0
  else 1

/-- The function `is_mpeg_ps_es_audio_stream_extended_ac3`. -/
def is_mpeg_ps_es_audio_stream_extended_ac3 (ctx : AVFormatContext)
    (codecs : av_codecs_t) : Int :=
  let res := common_ac3_check ctx codecs
  if res = 0 then 0
  else if codecs.ac.bit_rate < 64000 ∨ codecs.ac.bit_rate > 640000 then 0
  else 1

/-- The function `is_mpeg_ps_es_audio_stream_ac3`. -/
def is_mpeg_ps_es_audio_stream_ac3 (ctx : AVFormatContext) (codecs : av_codecs_t) : Int :=
  let res := common_ac3_check ctx codecs
  if res = 0 then 0
  else if codecs.ac.bit_rate < 64000 ∨ codecs.ac.bit_rate > 448000 then 0
  else 1

/-- The function `is_mpeg_ps_es_audio_stream_mp2`. -/
def is_mpeg_ps_es_audio_stream_mp2 (_ctx : AVFormatContext) (codecs : av_codecs_t) : Int :=
  if codecs.ac.codec_id ≠ CODEC_ID_MP2 ∧ codecs.ac.codec_id ≠ CODEC_ID_MP3 then 0
  else if codecs.ac.sample_rate ≠ 44100 ∧ codecs.ac.sample_rate ≠ 48000 then 0
  else if codecs.ac.channels > 2 then 0
  else if codecs.ac.channels = 1 ∧
      (codecs.ac.bit_rate < 64000 ∨ codecs.ac.bit_rate > 192000) then 0
  else if codecs.ac.channels = 2 ∧
      (codecs.ac.bit_rate < 64000 ∨ codecs.ac.bit_rate > 384000) then 0
  else 1

/-- The function `is_mpeg_ts_audio_stream_mp2`. -/
def is_mpeg_ts_audio_stream_mp2 (_ctx : AVFormatContext) (codecs : av_codecs_t) : Int :=
  if codecs.ac.codec_id ≠ CODEC_ID_MP2 ∧ codecs.ac.codec_id ≠ CODEC_ID_MP3 then 0
  else if codecs.ac.sample_rate ≠ 32000 ∧
      codecs.ac.sample_rate ≠ 44100 ∧
      codecs.ac.sample_rate ≠ 48000 then 0
  else if codecs.ac.channels > 5 then 0
  else if codecs.ac.bit_rate < 32000 ∨ codecs.ac.bit_rate > 448000 then 0
  else 1

/-- The function `is_mpeg_ts_audio_stream_ac3`. -/
def is_mpeg_ts_audio_stream_ac3 (_ctx : AVFormatContext) (codecs : av_codecs_t) : Int :=
  if codecs.ac.codec_id ≠ CODEC_ID_AC3 then 0
  else if codecs.ac.sample_rate ≠ 32000 ∧
      codecs.ac.sample_rate ≠ 44100 ∧
      codecs.ac.sample_rate ≠ 48000 then 0
  else if codecs.ac.channels > 5 then 0
  else if codecs.ac.bit_rate < 32000 ∨ codecs.ac.bit_rate > 640000 then 0
  else 1

/-! ## `av_mpeg2.c`: classifiers -/

/-- The `for` loop of `probe_mpeg_ps_es` over one resolution table: the first
row equal to the width and height of the video decides, by the audio stream,
between the `xac3` record, the `plain` record and `NULL`; without such a row
the loop ends and the function returns `NULL`. -/
def probe_mpeg_ps_es_scan (rows : List mpeg_ps_es_stream_t) (ctx : AVFormatContext)
    (codecs : av_codecs_t) (plain xac3 : dlna_profile_t) : Option dlna_profile_t :=
  match rows with
  | [] => none
  | row :: rest =>
    if row.width = codecs.vc.width ∧ row.height = codecs.vc.height then
      if is_mpeg_ps_es_audio_stream_extended_ac3 ctx codecs ≠ 0 then
        set_profile xac3
      else if is_mpeg_ps_es_audio_stream_lpcm ctx codecs ≠ 0 ∨
          is_mpeg_ps_es_audio_stream_ac3 ctx codecs ≠ 0 ∨
          is_mpeg_ps_es_audio_stream_mp2 ctx codecs ≠ 0 then
        set_profile plain
      else none
    else probe_mpeg_ps_es_scan rest ctx codecs plain xac3

/-- The function `probe_mpeg_ps_es`. -/
def probe_mpeg_ps_es (ctx : AVFormatContext) (codecs : av_codecs_t)
    (pal pal_xac3 ntsc ntsc_xac3 : dlna_profile_t) : Option dlna_profile_t :=
  if codecs.vs.r_frame_rate.num = 30000 ∧ codecs.vs.r_frame_rate.den = 1001 then
    probe_mpeg_ps_es_scan mpeg_ps_es_valid_streams_ntsc ctx codecs ntsc ntsc_xac3
  else if codecs.vs.r_frame_rate.num = 25 ∧ codecs.vs.r_frame_rate.den = 1 then
    probe_mpeg_ps_es_scan mpeg_ps_es_valid_streams_pal ctx codecs pal pal_xac3
  else none

/-- The function `probe_mpeg_ps`. -/
def probe_mpeg_ps (ctx : AVFormatContext) (codecs : av_codecs_t) : Option dlna_profile_t :=
  probe_mpeg_ps_es ctx codecs mpeg_ps_pal mpeg_ps_pal_xac3 mpeg_ps_ntsc mpeg_ps_ntsc_xac3

/-- The function `probe_mpeg_es`. -/
def probe_mpeg_es (ctx : AVFormatContext) (codecs : av_codecs_t) : Option dlna_profile_t :=
  probe_mpeg_ps_es ctx codecs mpeg_es_pal mpeg_es_pal_xac3 mpeg_es_ntsc mpeg_es_ntsc_xac3

/-- The `for` loop of `probe_mpeg_ts` over the EU-SD table: the first row with
the width and height of the video and with frame rate 25/1 decides, by the
audio stream and the container kind `st`; without such a row the function
returns `NULL`. -/
def probe_mpeg_ts_eu_scan (rows : List mpeg_ts_stream_t) (ctx : AVFormatContext)
    (codecs : av_codecs_t) (st : dlna_container_type_t) : Option dlna_profile_t :=
  match rows with
  | [] => none
  | row :: rest =>
    if row.width = codecs.vc.width ∧ row.height = codecs.vc.height ∧
        row.fps_num = 25 ∧ row.fps_den = 1 then
      if is_mpeg_ts_audio_stream_ac3 ctx codecs ≠ 0 ∨
          is_mpeg_ts_audio_stream_mp2 ctx codecs ≠ 0 then
        match st with
        | CT_MPEG_TRANSPORT_STREAM => set_profile mpeg_ts_sd_eu_iso
        | CT_MPEG_TRANSPORT_STREAM_DLNA => set_profile mpeg_ts_sd_eu_t
        | CT_MPEG_TRANSPORT_STREAM_DLNA_NO_TS => set_profile mpeg_ts_sd_eu
        | _ => none
      else none
    else probe_mpeg_ts_eu_scan rest ctx codecs st

/-- One of the two North America `for` loops of `probe_mpeg_ts`, over the table
`rows`: the first matching row returns the record for the container kind `st`
and the flag `xac3`; when no row matches the loop ends and the function goes
on with `after`. A row matches when its width and height are those of the
video and its `fps_num` and its `fps_den` both equal `r_frame_rate.num`. -/
def probe_mpeg_ts_na_scan (rows : List mpeg_ts_stream_t) (codecs : av_codecs_t)
    (st : dlna_container_type_t) (xac3 : Int)
    (na_iso na_t na xac3_iso xac3_t xac3_na : dlna_profile_t)
    (after : Option dlna_profile_t) : Option dlna_profile_t :=
  match rows with
  | [] => after
  | row :: rest =>
    if row.width = codecs.vc.width ∧ row.height = codecs.vc.height ∧
        row.fps_num = codecs.vs.r_frame_rate.num ∧
        row.fps_den = codecs.vs.r_frame_rate.num then
      match st with
      | CT_MPEG_TRANSPORT_STREAM =>
        if xac3 ≠ 0 then set_profile xac3_iso
        else set_profile na_iso
      | CT_MPEG_TRANSPORT_STREAM_DLNA =>
        if xac3 ≠ 0 then set_profile xac3_t
        else set_profile na_t
      | CT_MPEG_TRANSPORT_STREAM_DLNA_NO_TS =>
        if xac3 ≠ 0 then set_profile xac3_na
        else set_profile na
      | _ => none
    else probe_mpeg_ts_na_scan rest codecs st xac3 na_iso na_t na xac3_iso xac3_t xac3_na after

/-- The function `probe_mpeg_ts`. -/
def probe_mpeg_ts (ctx : AVFormatContext) (codecs : av_codecs_t)
    (st : dlna_container_type_t) : Option dlna_profile_t :=
  if codecs.ac.codec_id = CODEC_ID_AAC then
    if codecs.vc.width ≠ 352 ∧ codecs.vc.height ≠ 288 then none
    else if codecs.vs.r_frame_rate.num ≠ 30 ∧ codecs.vs.r_frame_rate.den ≠ 1 then none
    else if codecs.vc.bit_rate > 4000000 then none
    else if codecs.ac.bit_rate > 256000 then none
    else
      match st with
      | CT_MPEG_TRANSPORT_STREAM => set_profile mpeg_ts_mp_ll_aac_iso
      | CT_MPEG_TRANSPORT_STREAM_DLNA => set_profile mpeg_ts_mp_ll_aac_t
      | CT_MPEG_TRANSPORT_STREAM_DLNA_NO_TS => set_profile mpeg_ts_mp_ll_aac
      | _ => none
  else if codecs.vs.r_frame_rate.num = 25 ∧ codecs.vs.r_frame_rate.den = 1 then
    probe_mpeg_ts_eu_scan mpeg_ts_valid_streams_eu_sd ctx codecs st
  else if ctx.bit_rate > 19392700 then none
  else if codecs.ac.codec_id ≠ CODEC_ID_AC3 then none
  else if codecs.ac.sample_rate ≠ 48000 then none
  else if codecs.ac.channels > 5 then none
  else
    let xac3 : Int := if codecs.ac.bit_rate > 448000 then 1 else 0
    if codecs.ac.bit_rate > 640000 then none
    else
      probe_mpeg_ts_na_scan mpeg_ts_valid_streams_na_sd codecs st xac3
        mpeg_ts_sd_na_iso mpeg_ts_sd_na_t mpeg_ts_sd_na
        mpeg_ts_sd_na_xac3_iso mpeg_ts_sd_na_xac3_t mpeg_ts_sd_na_xac3
        (probe_mpeg_ts_na_scan mpeg_ts_valid_streams_na_hd codecs st xac3
          mpeg_ts_hd_na_iso mpeg_ts_hd_na_t mpeg_ts_hd_na
          mpeg_ts_hd_na_xac3_iso mpeg_ts_hd_na_xac3_t mpeg_ts_hd_na_xac3
          none)

/-- The function `probe_mpeg2`. The codec pair is released before the return
and plays no part in the result. -/
def probe_mpeg2 (ctx : AVFormatContext) : Option dlna_profile_t :=
  if ¬ match_file_extension ctx.filename MPEG2_KNOWN_EXTENSIONS then none
  else
    match av_profile_get_codecs ctx with
    | none => none
    | some codecs =>
      if codecs.vc.codec_id ≠ CODEC_ID_MPEG2VIDEO then none
      else
        match stream_get_container ctx with
        | CT_MPEG_ELEMENTARY_STREAM => probe_mpeg_es ctx codecs
        | CT_MPEG_PROGRAM_STREAM => probe_mpeg_ps ctx codecs
        | CT_MPEG_TRANSPORT_STREAM => probe_mpeg_ts ctx codecs CT_MPEG_TRANSPORT_STREAM
        | CT_MPEG_TRANSPORT_STREAM_DLNA =>
          probe_mpeg_ts ctx codecs CT_MPEG_TRANSPORT_STREAM_DLNA
        | CT_MPEG_TRANSPORT_STREAM_DLNA_NO_TS =>
          probe_mpeg_ts ctx codecs CT_MPEG_TRANSPORT_STREAM_DLNA_NO_TS
        | _ => none

/-! ## The catalog -/

/-- The profile records that `audio_aac.c` defines, in the order of the file. -/
def audio_aac_profiles : List dlna_profile_t :=
  [aac_adts, aac_adts_320, aac_iso, aac_iso_320, aac_ltp_iso, aac_ltp_mult5_iso,
   aac_ltp_mult7_iso, aac_mult5_adts, aac_mult5_iso, heaac_l2_adts, heaac_l2_iso,
   heaac_l3_adts, heaac_l3_iso, heaac_mult5_adts, heaac_mult5_iso, heaac_l2_adts_320,
   heaac_l2_iso_320, bsac_iso, bsac_mult5_iso]

/-- The profile records that `av_mpeg2.c` defines, in the order of the file. -/
def av_mpeg2_profiles : List dlna_profile_t :=
  [mpeg_ps_ntsc, mpeg_ps_ntsc_xac3, mpeg_ps_pal, mpeg_ps_pal_xac3,
   mpeg_ts_mp_ll_aac, mpeg_ts_mp_ll_aac_t, mpeg_ts_mp_ll_aac_iso,
   mpeg_ts_sd_eu, mpeg_ts_sd_eu_t, mpeg_ts_sd_eu_iso,
   mpeg_ts_sd_na, mpeg_ts_sd_na_t, mpeg_ts_sd_na_iso,
   mpeg_ts_sd_na_xac3, mpeg_ts_sd_na_xac3_t, mpeg_ts_sd_na_xac3_iso,
   mpeg_ts_hd_na, mpeg_ts_hd_na_t, mpeg_ts_hd_na_iso,
   mpeg_ts_hd_na_xac3, mpeg_ts_hd_na_xac3_t, mpeg_ts_hd_na_xac3_iso,
   mpeg_es_pal, mpeg_es_ntsc, mpeg_es_pal_xac3, mpeg_es_ntsc_xac3]

/-! ## `upnp.c`: service and action lookup -/

/-- Status codes, `dlna_status_code_t` of dlna.h. -/
inductive dlna_status_code_t where
  | DLNA_ST_OK
  | DLNA_ST_ERROR
  deriving DecidableEq, Repr

/-- An action of a service (`upnp_service_action_t`, declared in
upnp_internals.h): its name and its callback `cb`, kept as a number that
identifies the function. -/
structure upnp_service_action_t where
  name : String
  cb : Nat
  deriving DecidableEq, Repr

/-- A service (`upnp_service_t`, declared in upnp_internals.h): its id, its type
and its actions. The array of actions ends with an entry whose name is `NULL`;
the list holds the entries before that one. -/
structure upnp_service_t where
  id : String
  type : String
  actions : List upnp_service_action_t
  deriving DecidableEq, Repr

/-- An action request of the UPnP library (`struct Upnp_Action_Request`),
restricted to the members the lookup reads. -/
structure Upnp_Action_Request where
  ActionName : Option String
  ServiceID : String
  deriving DecidableEq, Repr

open dlna_status_code_t

/-- The inner loop of `upnp_find_service_action` over the actions of the
service found: the first action whose name equals the requested name, if there
is one. -/
def upnp_find_service_action_actions (actions : List upnp_service_action_t)
    (ActionName : String) : Option upnp_service_action_t :=
  match actions with
  | [] => none
  | a :: rest =>
    if a.name = ActionName then some a
    else upnp_find_service_action_actions rest ActionName

/-- The outer loop of `upnp_find_service_action` over the registered services:
the first service whose id equals the requested one decides; it is stored in
`*service`, then its actions are searched, with `DLNA_ST_OK` and the action in
`*action` on success and `DLNA_ST_ERROR` otherwise. The result is the returned
status with the final values of `*service` and `*action`. -/
def upnp_find_service_action_services (services : List upnp_service_t)
    (ServiceID ActionName : String) :
    dlna_status_code_t × Option upnp_service_t × Option upnp_service_action_t :=
  match services with
  | [] => (DLNA_ST_ERROR, none, none)
  | s :: rest =>
    if s.id = ServiceID then
      match upnp_find_service_action_actions s.actions ActionName with
      | some a => (DLNA_ST_OK, some s, some a)
      | none => (DLNA_ST_ERROR, some s, none)
    else upnp_find_service_action_services rest ServiceID ActionName

/-- The function `upnp_find_service_action`. The table `upnp_av_services` holds
ids and action arrays that are defined outside the sources, so it is a
parameter: the list of its entries before the terminating `NULL` entry. The
result is the returned status with the final values of `*service` and
`*action`, both set to `NULL` at the start. -/
def upnp_find_service_action (upnp_av_services : List upnp_service_t)
    (ar : Option Upnp_Action_Request) :
    dlna_status_code_t × Option upnp_service_t × Option upnp_service_action_t :=
  match ar with
  | none => (DLNA_ST_ERROR, none, none)
  | some ar =>
    match ar.ActionName with
    | none => (DLNA_ST_ERROR, none, none)
    | some ActionName =>
      upnp_find_service_action_services upnp_av_services ar.ServiceID ActionName

/-- A table of two services for concrete lookups: a connection manager with the
actions GetProtocolInfo and GetCurrentConnectionIDs, and a content directory
with the actions Browse and Search. -/
def example_services : List upnp_service_t :=
  [ { id := "urn:upnp-org:serviceId:ConnectionManager",
      type := "urn:schemas-upnp-org:service:ConnectionManager:1",
      actions := [ { name := "GetProtocolInfo", cb := 0 },
                   { name := "GetCurrentConnectionIDs", cb := 1 } ] },
    { id := "urn:upnp-org:serviceId:ContentDirectory",
      type := "urn:schemas-upnp-org:service:ContentDirectory:1",
      actions := [ { name := "Browse", cb := 2 }, { name := "Search", cb := 3 } ] } ]

/-! ## Descriptors used as concrete inputs -/

/-- A descriptor with 7-channel AAC audio at 48000 Hz and bit rate `br`, in a
container of unknown kind (raw ADTS). -/
def seven_channel_descriptor (br : Int) : AVFormatContext :=
  { container := CT_UNKNOWN,
    audio := some { codec_id := CODEC_ID_AAC, sample_rate := 48000, channels := 7,
                    bit_rate := br } }

/-- The descriptor of the end-to-end scenario: container unknown, AAC audio at
44100 Hz, 2 channels, 320000 bps. -/
def raw_adts_320_descriptor : AVFormatContext :=
  { container := CT_UNKNOWN,
    audio := some { codec_id := CODEC_ID_AAC, sample_rate := 44100, channels := 2,
                    bit_rate := 320000 } }

/-- A stereo AAC codec context: 44100 Hz, 2 channels, 128000 bps. -/
def stereo_aac_context : AVCodecContext :=
  { codec_id := CODEC_ID_AAC, sample_rate := 44100, channels := 2, bit_rate := 128000 }

/-- A 5-channel AAC codec context: 48000 Hz, 1444000 bps. -/
def mult5_aac_context : AVCodecContext :=
  { codec_id := CODEC_ID_AAC, sample_rate := 48000, channels := 5, bit_rate := 1444000 }

/-- A 7-channel AAC codec context at 8000 Hz with the bit rate `2 ^ 31 - 1`. -/
def seven_channel_context : AVCodecContext :=
  { codec_id := CODEC_ID_AAC, sample_rate := 8000, channels := 7, bit_rate := 2147483647 }

/-- A 6-channel AAC codec context: 48000 Hz, 384000 bps. -/
def six_channel_context : AVCodecContext :=
  { codec_id := CODEC_ID_AAC, sample_rate := 48000, channels := 6, bit_rate := 384000 }

/-- An AC-3 codec context: 48000 Hz, 2 channels, 384000 bps. -/
def ac3_context : AVCodecContext :=
  { codec_id := CODEC_ID_AC3, sample_rate := 48000, channels := 2, bit_rate := 384000 }

/-- The stereo AAC codec context with the two configuration bytes 0x12 0x10. -/
def stereo_aac_context_with_extradata : AVCodecContext :=
  { codec_id := CODEC_ID_AAC, sample_rate := 44100, channels := 2, bit_rate := 128000,
    extradata := some [18, 16], extradata_size := 2 }

/-- An MPEG-2 video stream of the given width, height and frame rate, with a
video bit rate of 12000000 bps. -/
def mpeg2_video_stream (width height num den : Int) : AVStream :=
  { r_frame_rate := { num := num, den := den },
    codec := { codec_id := CODEC_ID_MPEG2VIDEO, sample_rate := 0, channels := 0,
               bit_rate := 12000000, width := width, height := height } }

/-- A transport-stream file with MPEG-2 video 720x576 at 25/1 and no audio
stream. -/
def video_only_descriptor : AVFormatContext :=
  { container := CT_MPEG_TRANSPORT_STREAM, audio := none,
    video := some (mpeg2_video_stream 720 576 25 1), bit_rate := 8000000,
    filename := "movie.ts" }

/-- An MPEG-2 video stream of the given width, height, frame rate and video bit
rate. -/
def mpeg2_video_stream_at (width height num den bit_rate : Int) : AVStream :=
  { r_frame_rate := { num := num, den := den },
    codec := { codec_id := CODEC_ID_MPEG2VIDEO, sample_rate := 0, channels := 0,
               bit_rate := bit_rate, width := width, height := height } }

/-- The codec pair made of an audio codec context and a video stream. -/
def codec_pair (ac : AVCodecContext) (vs : AVStream) : av_codecs_t :=
  { ac := ac, vs := vs, vc := vs.codec }

/-- An AC-3 codec context at 48000 Hz with 2 channels and the given bit rate. -/
def ac3_context_at (bit_rate : Int) : AVCodecContext :=
  { codec_id := CODEC_ID_AC3, sample_rate := 48000, channels := 2, bit_rate := bit_rate }

/-- A file with the given container kind, overall bit rate, audio codec
context, video stream and file name. -/
def av_descriptor (container : dlna_container_type_t) (bit_rate : Int)
    (ac : AVCodecContext) (vs : AVStream) (filename : String) : AVFormatContext :=
  { container := container, audio := some ac, video := some vs, bit_rate := bit_rate,
    filename := filename }

/-- AAC audio (48000 Hz, 2 channels, 128000 bps) next to MPEG-2 video of
352x480 at 25/1 with a video bit rate of 3000000 bps. -/
def aac_352x480_codecs : av_codecs_t :=
  codec_pair
    { codec_id := CODEC_ID_AAC, sample_rate := 48000, channels := 2, bit_rate := 128000 }
    (mpeg2_video_stream_at 352 480 25 1 3000000)

/-- AAC audio (48000 Hz, 2 channels, 128000 bps) next to MPEG-2 video of
352x576 at 25/1, a resolution of the EU-SD table, with a video bit rate of
3000000 bps. -/
def aac_352x576_codecs : av_codecs_t :=
  codec_pair
    { codec_id := CODEC_ID_AAC, sample_rate := 48000, channels := 2, bit_rate := 128000 }
    (mpeg2_video_stream_at 352 576 25 1 3000000)

/-- AC-3 audio (48000 Hz, 2 channels) at the given bit rate next to MPEG-2 video
of 720x480 at 30/1001, the first row of the NA-SD table. -/
def ac3_720x480_codecs (bit_rate : Int) : av_codecs_t :=
  codec_pair (ac3_context_at bit_rate) (mpeg2_video_stream 720 480 30 1001)

/-- AC-3 audio (48000 Hz, 2 channels, 384000 bps) next to MPEG-2 video of
720x576 at 25/1, the first row of the EU-SD table. -/
def ac3_720x576_codecs : av_codecs_t :=
  codec_pair ac3_context (mpeg2_video_stream 720 576 25 1)

/-- The descriptor of the end-to-end scenario: transport stream with valid
timestamp, system bit rate 15000000, MPEG-2 video 1920x1080 at 30000/1001 with
bit rate 12000000, AC-3 audio at 48000 Hz, 2 channels, 384000 bps; the file
name is left open. -/
def hd_na_descriptor (filename : String) : AVFormatContext :=
  av_descriptor CT_MPEG_TRANSPORT_STREAM_DLNA 15000000 ac3_context
    (mpeg2_video_stream 1920 1080 30000 1001) filename

/-- A stereo AAC codec context at 44100 Hz with a bit rate of 400000 bps. -/
def stereo_aac_400k_context : AVCodecContext :=
  { codec_id := CODEC_ID_AAC, sample_rate := 44100, channels := 2, bit_rate := 400000 }

/-! ## Properties of `audio_profile_guess_aac` -/

/-- The sample-rate guard of `audio_profile_guess_aac` fails exactly on the
nine supported rates. -/
theorem sample_rate_guard_iff (r : Int) :
    ¬ (r ≠ 8000 ∧ r ≠ 11025 ∧ r ≠ 12000 ∧ r ≠ 16000 ∧ r ≠ 22050 ∧
        r ≠ 24000 ∧ r ≠ 32000 ∧ r ≠ 44100 ∧ r ≠ 48000) ↔
      r ∈ ([8000, 11025, 12000, 16000, 22050, 24000, 32000, 44100, 48000] : List Int) := by
  simp only [List.mem_cons, List.mem_singleton, List.not_mem_nil, or_false]
  omega

/-- The decision of `audio_profile_guess_aac` on an AAC context with a supported
sample rate: only the channel and bit-rate dispatch is left. -/
theorem audio_profile_guess_aac_dispatch (c : AVCodecContext)
    (hc : c.codec_id = CODEC_ID_AAC)
    (hr : c.sample_rate ∈
      ([8000, 11025, 12000, 16000, 22050, 24000, 32000, 44100, 48000] : List Int)) :
    audio_profile_guess_aac (some c) =
      if c.channels = 1 ∨ c.channels = 2 then
        if c.bit_rate ≤ 576000 then AUDIO_PROFILE_AAC else AUDIO_PROFILE_INVALID
      else if c.channels = 5 then
        if c.bit_rate ≤ 1444000 then AUDIO_PROFILE_AAC_MULT5 else AUDIO_PROFILE_INVALID
      else if c.channels = 7 then AUDIO_PROFILE_AAC_LTP_MULT7
      else AUDIO_PROFILE_INVALID := by
  have hg := (sample_rate_guard_iff c.sample_rate).mpr hr
  simp only [audio_profile_guess_aac, hc, ne_eq, not_true_eq_false, if_false]
  rw [if_neg hg]

/-- C1: `audio_profile_guess_aac` returns `AUDIO_PROFILE_INVALID` whenever the
codec is not AAC or the sample rate is not one of the nine rates 8000, 11025,
12000, 16000, 22050, 24000, 32000, 44100, 48000; equivalently, a result other
than `AUDIO_PROFILE_INVALID` implies an AAC codec and one of these rates. -/
theorem audio_profile_guess_aac_invalid_codec_or_rate (c : AVCodecContext) :
    ((c.codec_id ≠ CODEC_ID_AAC ∨ c.sample_rate ∉
        ([8000, 11025, 12000, 16000, 22050, 24000, 32000, 44100, 48000] : List Int)) →
      audio_profile_guess_aac (some c) = AUDIO_PROFILE_INVALID) ∧
    (audio_profile_guess_aac (some c) ≠ AUDIO_PROFILE_INVALID →
      c.codec_id = CODEC_ID_AAC ∧ c.sample_rate ∈
        ([8000, 11025, 12000, 16000, 22050, 24000, 32000, 44100, 48000] : List Int)) := by
  have key : (c.codec_id ≠ CODEC_ID_AAC ∨ c.sample_rate ∉
        ([8000, 11025, 12000, 16000, 22050, 24000, 32000, 44100, 48000] : List Int)) →
      audio_profile_guess_aac (some c) = AUDIO_PROFILE_INVALID := by
    intro h
    by_cases hc : c.codec_id = CODEC_ID_AAC
    · have hr : c.sample_rate ∉
          ([8000, 11025, 12000, 16000, 22050, 24000, 32000, 44100, 48000] : List Int) := by
        rcases h with h | h
        · exact absurd hc h
        · exact h
      have hg := (not_congr (sample_rate_guard_iff c.sample_rate)).mpr hr
      rw [not_not] at hg
      simp only [audio_profile_guess_aac, hc, ne_eq, not_true_eq_false, if_false]
      rw [if_pos hg]
    · simp only [audio_profile_guess_aac, ne_eq, hc, not_false_eq_true, if_true]
  refine ⟨key, ?_⟩
  intro hne
  by_contra hcon
  apply hne
  apply key
  by_cases hc : c.codec_id = CODEC_ID_AAC
  · right
    intro hr
    exact hcon ⟨hc, hr⟩
  · left
    exact hc

/-- C2: on an AAC context with one of the nine supported sample rates,
`audio_profile_guess_aac` returns `AUDIO_PROFILE_AAC` if and only if the
channel count is 1 or 2 and the bit rate is at most 576000; a 1- or 2-channel
stream above 576000 bps is rejected with `AUDIO_PROFILE_INVALID`. -/
theorem audio_profile_guess_aac_stereo_iff (c : AVCodecContext)
    (hc : c.codec_id = CODEC_ID_AAC)
    (hr : c.sample_rate ∈
      ([8000, 11025, 12000, 16000, 22050, 24000, 32000, 44100, 48000] : List Int)) :
    (audio_profile_guess_aac (some c) = AUDIO_PROFILE_AAC ↔
      (c.channels = 1 ∨ c.channels = 2) ∧ c.bit_rate ≤ 576000) ∧
    ((c.channels = 1 ∨ c.channels = 2) → 576000 < c.bit_rate →
      audio_profile_guess_aac (some c) = AUDIO_PROFILE_INVALID) := by
  rw [audio_profile_guess_aac_dispatch c hc hr]
  constructor
  · split_ifs <;> simp_all
  · intro hch hb
    rw [if_pos hch, if_neg (not_le.mpr hb)]

/-- C3: on an AAC context with one of the nine supported sample rates,
`audio_profile_guess_aac` returns `AUDIO_PROFILE_AAC_MULT5` if and only if the
channel count is exactly 5 and the bit rate is at most 1444000. -/
theorem audio_profile_guess_aac_mult5_iff (c : AVCodecContext)
    (hc : c.codec_id = CODEC_ID_AAC)
    (hr : c.sample_rate ∈
      ([8000, 11025, 12000, 16000, 22050, 24000, 32000, 44100, 48000] : List Int)) :
    audio_profile_guess_aac (some c) = AUDIO_PROFILE_AAC_MULT5 ↔
      c.channels = 5 ∧ c.bit_rate ≤ 1444000 := by
  rw [audio_profile_guess_aac_dispatch c hc hr]
  split_ifs with h1 h2 h3 h4 h5 <;> simp_all <;> omega

/-- C4: on an AAC context with a supported sample rate and exactly 7 channels,
`audio_profile_guess_aac` returns `AUDIO_PROFILE_AAC_LTP_MULT7` whatever the bit
rate is. -/
theorem audio_profile_guess_aac_seven_channels (c : AVCodecContext)
    (hc : c.codec_id = CODEC_ID_AAC)
    (hr : c.sample_rate ∈
      ([8000, 11025, 12000, 16000, 22050, 24000, 32000, 44100, 48000] : List Int))
    (h7 : c.channels = 7) :
    audio_profile_guess_aac (some c) = AUDIO_PROFILE_AAC_LTP_MULT7 := by
  rw [audio_profile_guess_aac_dispatch c hc hr, h7]
  simp

/-- Witness of C1: an AC-3 context is rejected. -/
theorem audio_profile_guess_aac_invalid_codec_or_rate_witness :
    audio_profile_guess_aac (some ac3_context) = AUDIO_PROFILE_INVALID :=
  (audio_profile_guess_aac_invalid_codec_or_rate ac3_context).1 (Or.inl (by decide))

/-- Witness of C2: the stereo context at 44100 Hz and 128000 bps. -/
theorem audio_profile_guess_aac_stereo_iff_witness :
    (audio_profile_guess_aac (some stereo_aac_context) = AUDIO_PROFILE_AAC ↔
      (stereo_aac_context.channels = 1 ∨ stereo_aac_context.channels = 2) ∧
        stereo_aac_context.bit_rate ≤ 576000) ∧
    ((stereo_aac_context.channels = 1 ∨ stereo_aac_context.channels = 2) →
      576000 < stereo_aac_context.bit_rate →
      audio_profile_guess_aac (some stereo_aac_context) = AUDIO_PROFILE_INVALID) :=
  audio_profile_guess_aac_stereo_iff stereo_aac_context (by decide) (by decide)

/-- Witness of C3: the 5-channel context at the bit-rate bound 1444000. -/
theorem audio_profile_guess_aac_mult5_iff_witness :
    audio_profile_guess_aac (some mult5_aac_context) = AUDIO_PROFILE_AAC_MULT5 ↔
      mult5_aac_context.channels = 5 ∧ mult5_aac_context.bit_rate ≤ 1444000 :=
  audio_profile_guess_aac_mult5_iff mult5_aac_context (by decide) (by decide)

/-- Witness of C4: 7 channels at the largest 32-bit signed bit rate. -/
theorem audio_profile_guess_aac_seven_channels_witness :
    audio_profile_guess_aac (some seven_channel_context) = AUDIO_PROFILE_AAC_LTP_MULT7 :=
  audio_profile_guess_aac_seven_channels seven_channel_context (by decide) (by decide)
    (by decide)

/-! ## Properties of `probe_mpeg4` -/

/-- The result of `probe_mpeg4` on a descriptor with an AAC audio stream, in
terms of the class `audio_profile_guess_aac` assigns to that stream. -/
theorem probe_mpeg4_of_aac (v : Int) (ctx : AVFormatContext) (c : AVCodecContext)
    (ha : ctx.audio = some c) (hc : c.codec_id = CODEC_ID_AAC) :
    probe_mpeg4 v ctx =
      if audio_profile_guess_aac (some c) = AUDIO_PROFILE_INVALID then none
      else if audio_profile_guess_aac (some c) = AUDIO_PROFILE_AAC_MULT5 then
        if ctx.container = CT_UNKNOWN then set_profile aac_mult5_adts
        else set_profile aac_mult5_iso
      else if v ≠ 0 then
        if ctx.container = CT_UNKNOWN then set_profile aac_adts_320
        else set_profile aac_iso_320
      else
        if ctx.container = CT_UNKNOWN then set_profile aac_adts
        else set_profile aac_iso := by
  by_cases hk : ctx.container = CT_UNKNOWN
  · simp [probe_mpeg4, stream_get_container, audio_profile_get_codec, ha, hc, hk,
      AAC_RAW, AAC_MUXED]
  · simp [probe_mpeg4, stream_get_container, audio_profile_get_codec, ha, hc, hk,
      AAC_RAW, AAC_MUXED]

/-- A descriptor whose audio stream is absent, is not AAC, or is rejected by
`audio_profile_guess_aac` gets no record; so a record implies an AAC stream
that `audio_profile_guess_aac` accepts. -/
theorem probe_mpeg4_some_inv (v : Int) (ctx : AVFormatContext) (r : dlna_profile_t)
    (h : probe_mpeg4 v ctx = some r) :
    ∃ c, ctx.audio = some c ∧ c.codec_id = CODEC_ID_AAC ∧
      audio_profile_guess_aac (some c) ≠ AUDIO_PROFILE_INVALID := by
  cases ha : ctx.audio with
  | none => simp [probe_mpeg4, audio_profile_get_codec, ha] at h
  | some c =>
    refine ⟨c, rfl, ?_, ?_⟩
    · by_contra hc
      simp [probe_mpeg4, audio_profile_get_codec, ha, hc] at h
    · intro hi
      simp [probe_mpeg4, audio_profile_get_codec, ha, hi] at h

/-- C5: for every descriptor whose audio codec is AAC and whose channel count is
not 1, 2, 5 or 7, `audio_profile_guess_aac` returns `AUDIO_PROFILE_INVALID` and
`probe_mpeg4` returns no record, whatever the sample rate, the bit rate and the
container are. -/
theorem probe_mpeg4_rejects_other_channel_counts (v : Int) (ctx : AVFormatContext)
    (c : AVCodecContext) (ha : ctx.audio = some c) (hc : c.codec_id = CODEC_ID_AAC)
    (hch : c.channels ≠ 1 ∧ c.channels ≠ 2 ∧ c.channels ≠ 5 ∧ c.channels ≠ 7) :
    audio_profile_guess_aac (some c) = AUDIO_PROFILE_INVALID ∧ probe_mpeg4 v ctx = none := by
  obtain ⟨h1, h2, h5, h7⟩ := hch
  have hg : audio_profile_guess_aac (some c) = AUDIO_PROFILE_INVALID := by
    simp only [audio_profile_guess_aac, hc, ne_eq, not_true_eq_false, if_false,
      h1, h2, h5, h7, or_self, ite_self]
  refine ⟨hg, ?_⟩
  rw [probe_mpeg4_of_aac v ctx c ha hc, if_pos hg]

/-- Witness of C5: 6-channel AAC audio in a program stream. -/
theorem probe_mpeg4_rejects_other_channel_counts_witness :
    audio_profile_guess_aac (some six_channel_context) = AUDIO_PROFILE_INVALID ∧
      probe_mpeg4 1 { container := CT_MPEG_PROGRAM_STREAM,
                      audio := some six_channel_context } = none :=
  probe_mpeg4_rejects_other_channel_counts 1
    { container := CT_MPEG_PROGRAM_STREAM, audio := some six_channel_context }
    six_channel_context rfl (by decide) (by decide)

/-- C6 (evaluation of the code): on the descriptor with 7-channel AAC audio at
48000 Hz in a container of unknown kind, for every bit rate,
`audio_profile_guess_aac` classifies the stream as `AUDIO_PROFILE_AAC_LTP_MULT7`,
yet `probe_mpeg4` returns the stereo record `aac_adts_320` (or `aac_adts` when
the enumerator `AUDIO_PROFILE_AAC` has the value 0), and in no case the record
whose id is AAC_LTP_MULT7_ISO. -/
theorem probe_mpeg4_seven_channels_stereo_record (v : Int) (br : Int) :
    audio_profile_guess_aac (seven_channel_descriptor br).audio =
        AUDIO_PROFILE_AAC_LTP_MULT7 ∧
      probe_mpeg4 v (seven_channel_descriptor br) =
        (if v ≠ 0 then set_profile aac_adts_320
         else set_profile aac_adts) ∧
      Option.map dlna_profile_t.id (probe_mpeg4 v (seven_channel_descriptor br)) ≠
        some aac_ltp_mult7_iso.id := by
  have hg : audio_profile_guess_aac (seven_channel_descriptor br).audio =
      AUDIO_PROFILE_AAC_LTP_MULT7 := by
    simp [seven_channel_descriptor, audio_profile_guess_aac]
  have hp : probe_mpeg4 v (seven_channel_descriptor br) =
      (if v ≠ 0 then set_profile aac_adts_320
       else set_profile aac_adts) := by
    rw [probe_mpeg4_of_aac v (seven_channel_descriptor br) _ rfl rfl]
    have hg2 := hg
    simp only [seven_channel_descriptor] at hg2
    rw [hg2]
    simp [seven_channel_descriptor]
  refine ⟨hg, hp, ?_⟩
  rw [hp]
  by_cases hv : v = 0
  · simp [hv, set_profile, aac_adts, aac_ltp_mult7_iso]
  · simp [hv, set_profile, aac_adts_320, aac_ltp_mult7_iso]

/-- C8: on the descriptor with container unknown and AAC audio at 44100 Hz,
2 channels, 320000 bps, `probe_mpeg4` returns the record `aac_adts_320`, whose
id is AAC_ADTS_320, provided the enumerator `AUDIO_PROFILE_AAC` is not 0. -/
theorem probe_mpeg4_raw_adts_320 (v : Int) (hv : v ≠ 0) :
    probe_mpeg4 v raw_adts_320_descriptor = set_profile aac_adts_320 ∧
      Option.map dlna_profile_t.id (probe_mpeg4 v raw_adts_320_descriptor) =
        some "AAC_ADTS_320" := by
  have hp : probe_mpeg4 v raw_adts_320_descriptor =
      set_profile aac_adts_320 := by
    rw [probe_mpeg4_of_aac v raw_adts_320_descriptor _ rfl rfl]
    simp [raw_adts_320_descriptor, audio_profile_guess_aac, hv]
  refine ⟨hp, ?_⟩
  rw [hp]
  simp [set_profile, aac_adts_320]

/-- Witness of C8: the enumerator value 1. -/
theorem probe_mpeg4_raw_adts_320_witness :
    probe_mpeg4 1 raw_adts_320_descriptor = set_profile aac_adts_320 ∧
      Option.map dlna_profile_t.id (probe_mpeg4 1 raw_adts_320_descriptor) =
        some "AAC_ADTS_320" :=
  probe_mpeg4_raw_adts_320 1 (by decide)

/-- C9: whenever `probe_mpeg4` returns a record, the record is an ADTS one
(AAC_ADTS, AAC_ADTS_320 or AAC_MULT5_ADTS) if and only if the container kind is
`CT_UNKNOWN`, and for every other container kind it is an ISO one (AAC_ISO,
AAC_ISO_320 or AAC_MULT5_ISO). -/
theorem probe_mpeg4_adts_iff_unknown_container (v : Int) (ctx : AVFormatContext)
    (r : dlna_profile_t) (h : probe_mpeg4 v ctx = some r) :
    (r.id ∈ ["AAC_ADTS", "AAC_ADTS_320", "AAC_MULT5_ADTS"] ↔ ctx.container = CT_UNKNOWN) ∧
      (ctx.container ≠ CT_UNKNOWN →
        r.id ∈ ["AAC_ISO", "AAC_ISO_320", "AAC_MULT5_ISO"]) := by
  obtain ⟨c, ha, hc, hg⟩ := probe_mpeg4_some_inv v ctx r h
  rw [probe_mpeg4_of_aac v ctx c ha hc, if_neg hg] at h
  by_cases hk : ctx.container = CT_UNKNOWN <;> by_cases hv : v = 0 <;>
    by_cases h5 : audio_profile_guess_aac (some c) = AUDIO_PROFILE_AAC_MULT5 <;>
    simp [hk, hv, h5, set_profile, aac_adts, aac_adts_320, aac_iso, aac_iso_320,
      aac_mult5_adts, aac_mult5_iso] at h <;>
    subst h <;> simp [hk]

/-- Witness of C9: the raw ADTS descriptor of the end-to-end scenario and the
record it gets. -/
theorem probe_mpeg4_adts_iff_unknown_container_witness :
    (aac_adts_320.id ∈ ["AAC_ADTS", "AAC_ADTS_320", "AAC_MULT5_ADTS"] ↔
      raw_adts_320_descriptor.container = CT_UNKNOWN) ∧
    (raw_adts_320_descriptor.container ≠ CT_UNKNOWN →
      aac_adts_320.id ∈ ["AAC_ISO", "AAC_ISO_320", "AAC_MULT5_ISO"]) :=
  probe_mpeg4_adts_iff_unknown_container 1 raw_adts_320_descriptor aac_adts_320 (by decide)

/-! ## Properties of `aac_object_type_get` -/

/-- C10: for a buffer that holds at least one byte and a length of at least 1,
`aac_object_type_get` returns the top 5 bits of the first byte (`data[0] >> 3`),
a value between 0 and 31; for an absent buffer, and for a length below 1, it
returns `AAC_INVALID`, which is 0. -/
theorem aac_object_type_get_top_five_bits :
    (∀ (b : uint8_t) (rest : List uint8_t) (len : Int), 1 ≤ len →
      aac_object_type_get (some (b :: rest)) len = some (b.val >>> 3) ∧
        b.val >>> 3 = b.val / 8 ∧ b.val >>> 3 ≤ 31) ∧
    (∀ len : Int, aac_object_type_get none len = some AAC_INVALID) ∧
    (∀ (data : Option (List uint8_t)) (len : Int), len < 1 →
      aac_object_type_get data len = some AAC_INVALID) ∧
    AAC_INVALID = 0 := by
  refine ⟨?_, ?_, ?_, rfl⟩
  · intro b rest len hl
    have hb : b.val < 256 := b.isLt
    have hs : b.val >>> 3 = b.val / 8 := by
      rw [Nat.shiftRight_eq_div_pow]
    have hle : b.val >>> 3 ≤ 31 := by
      rw [hs]
      omega
    refine ⟨?_, hs, hle⟩
    have hn : ¬ len < 1 := by omega
    simp only [aac_object_type_get, hn, if_false]
    congr 1
    exact Nat.mod_eq_of_lt (by omega)
  · intro len
    rfl
  · intro data len hl
    cases data with
    | none => rfl
    | some bytes => simp only [aac_object_type_get, hl, if_true]

/-- Witness of C10: the configuration bytes 0x12 0x10 (object type 2, AAC LC). -/
theorem aac_object_type_get_top_five_bits_witness :
    aac_object_type_get (some [18, 16]) 2 = some 2 :=
  (aac_object_type_get_top_five_bits.1 18 [16] 2 (by decide)).1

/-! ## The object type is not part of the decision -/

/-- C11: two codec contexts that agree on codec id, sample rate, channels and
bit rate get the same result from `audio_profile_guess_aac`, whatever their
`extradata` and `extradata_size` are, and two descriptors of the same container
kind that carry them get the same record from `probe_mpeg4`. -/
theorem audio_profile_guess_aac_ignores_extradata (c1 c2 : AVCodecContext)
    (hid : c1.codec_id = c2.codec_id) (hr : c1.sample_rate = c2.sample_rate)
    (hch : c1.channels = c2.channels) (hb : c1.bit_rate = c2.bit_rate) :
    audio_profile_guess_aac (some c1) = audio_profile_guess_aac (some c2) ∧
      ∀ (v : Int) (ctx1 ctx2 : AVFormatContext), ctx1.container = ctx2.container →
        ctx1.audio = some c1 → ctx2.audio = some c2 →
        probe_mpeg4 v ctx1 = probe_mpeg4 v ctx2 := by
  have hg : audio_profile_guess_aac (some c1) = audio_profile_guess_aac (some c2) := by
    simp only [audio_profile_guess_aac, hid, hr, hch, hb]
  refine ⟨hg, ?_⟩
  intro v ctx1 ctx2 hk h1 h2
  simp only [probe_mpeg4, stream_get_container, audio_profile_get_codec, h1, h2, hk, hg,
    hid]

/-- Witness of C11: the stereo context with and without configuration bytes. -/
theorem audio_profile_guess_aac_ignores_extradata_witness :
    audio_profile_guess_aac (some stereo_aac_context_with_extradata) =
        audio_profile_guess_aac (some stereo_aac_context) ∧
      ∀ (v : Int) (ctx1 ctx2 : AVFormatContext), ctx1.container = ctx2.container →
        ctx1.audio = some stereo_aac_context_with_extradata →
        ctx2.audio = some stereo_aac_context →
        probe_mpeg4 v ctx1 = probe_mpeg4 v ctx2 :=
  audio_profile_guess_aac_ignores_extradata stereo_aac_context_with_extradata
    stereo_aac_context rfl rfl rfl rfl

/-! ## Properties of the audio validators of `av_mpeg2.c` -/

/-- C12: `is_mpeg_ps_es_audio_stream_lpcm` returns 1 if and only if the codec
is 16-bit signed PCM of either byte order, the sample rate is 48000, there are
at most 2 channels, the bit rate is at most 1536000 when there are 2 channels
and at most 768000 when there is 1 channel; otherwise it returns 0. -/
theorem is_mpeg_ps_es_audio_stream_lpcm_iff (ctx : AVFormatContext) (codecs : av_codecs_t) :
    (is_mpeg_ps_es_audio_stream_lpcm ctx codecs = 1 ↔
      (codecs.ac.codec_id = CODEC_ID_PCM_S16BE ∨ codecs.ac.codec_id = CODEC_ID_PCM_S16LE) ∧
      codecs.ac.sample_rate = 48000 ∧ codecs.ac.channels ≤ 2 ∧
      (codecs.ac.channels = 2 → codecs.ac.bit_rate ≤ 1536000) ∧
      (codecs.ac.channels = 1 → codecs.ac.bit_rate ≤ 768000)) ∧
    (is_mpeg_ps_es_audio_stream_lpcm ctx codecs = 0 ↔
      ¬ ((codecs.ac.codec_id = CODEC_ID_PCM_S16BE ∨
          codecs.ac.codec_id = CODEC_ID_PCM_S16LE) ∧
        codecs.ac.sample_rate = 48000 ∧ codecs.ac.channels ≤ 2 ∧
        (codecs.ac.channels = 2 → codecs.ac.bit_rate ≤ 1536000) ∧
        (codecs.ac.channels = 1 → codecs.ac.bit_rate ≤ 768000))) := by
  unfold is_mpeg_ps_es_audio_stream_lpcm
  constructor <;> split_ifs <;> simp_all
  all_goals first | omega | tauto

/-- The decision of `common_ac3_check`: 1 for an AC-3 stream at 48000 Hz with at
most 5 channels, 0 otherwise. -/
theorem common_ac3_check_eq (ctx : AVFormatContext) (codecs : av_codecs_t) :
    common_ac3_check ctx codecs =
      if codecs.ac.codec_id = CODEC_ID_AC3 ∧ codecs.ac.sample_rate = 48000 ∧
          codecs.ac.channels ≤ 5 then 1 else 0 := by
  unfold common_ac3_check
  split_ifs <;> simp_all
  all_goals omega

/-- C13: `is_mpeg_ps_es_audio_stream_ac3` returns 1 if and only if the codec is
AC-3, the sample rate is 48000, there are at most 5 channels and the bit rate
lies between 64000 and 448000; otherwise it returns 0. -/
theorem is_mpeg_ps_es_audio_stream_ac3_iff (ctx : AVFormatContext) (codecs : av_codecs_t) :
    (is_mpeg_ps_es_audio_stream_ac3 ctx codecs = 1 ↔
      codecs.ac.codec_id = CODEC_ID_AC3 ∧ codecs.ac.sample_rate = 48000 ∧
      codecs.ac.channels ≤ 5 ∧ 64000 ≤ codecs.ac.bit_rate ∧
      codecs.ac.bit_rate ≤ 448000) ∧
    (is_mpeg_ps_es_audio_stream_ac3 ctx codecs = 0 ↔
      ¬ (codecs.ac.codec_id = CODEC_ID_AC3 ∧ codecs.ac.sample_rate = 48000 ∧
        codecs.ac.channels ≤ 5 ∧ 64000 ≤ codecs.ac.bit_rate ∧
        codecs.ac.bit_rate ≤ 448000)) := by
  unfold is_mpeg_ps_es_audio_stream_ac3
  rw [common_ac3_check_eq]
  constructor <;> split_ifs <;> simp_all
  all_goals omega

/-- C14: `is_mpeg_ps_es_audio_stream_extended_ac3` returns 1 if and only if the
codec is AC-3, the sample rate is 48000, there are at most 5 channels and the
bit rate lies between 64000 and 640000; otherwise it returns 0. -/
theorem is_mpeg_ps_es_audio_stream_extended_ac3_iff (ctx : AVFormatContext)
    (codecs : av_codecs_t) :
    (is_mpeg_ps_es_audio_stream_extended_ac3 ctx codecs = 1 ↔
      codecs.ac.codec_id = CODEC_ID_AC3 ∧ codecs.ac.sample_rate = 48000 ∧
      codecs.ac.channels ≤ 5 ∧ 64000 ≤ codecs.ac.bit_rate ∧
      codecs.ac.bit_rate ≤ 640000) ∧
    (is_mpeg_ps_es_audio_stream_extended_ac3 ctx codecs = 0 ↔
      ¬ (codecs.ac.codec_id = CODEC_ID_AC3 ∧ codecs.ac.sample_rate = 48000 ∧
        codecs.ac.channels ≤ 5 ∧ 64000 ≤ codecs.ac.bit_rate ∧
        codecs.ac.bit_rate ≤ 640000)) := by
  unfold is_mpeg_ps_es_audio_stream_extended_ac3
  rw [common_ac3_check_eq]
  constructor <;> split_ifs <;> simp_all
  all_goals omega

/-- C15: `is_mpeg_ps_es_audio_stream_mp2` returns 1 if and only if the codec is
MPEG Layer-2 or Layer-3, the sample rate is 44100 or 48000, there are at most 2
channels, the bit rate lies in [64000, 192000] when there is 1 channel and in
[64000, 384000] when there are 2 channels; otherwise it returns 0. -/
theorem is_mpeg_ps_es_audio_stream_mp2_iff (ctx : AVFormatContext) (codecs : av_codecs_t) :
    (is_mpeg_ps_es_audio_stream_mp2 ctx codecs = 1 ↔
      (codecs.ac.codec_id = CODEC_ID_MP2 ∨ codecs.ac.codec_id = CODEC_ID_MP3) ∧
      (codecs.ac.sample_rate = 44100 ∨ codecs.ac.sample_rate = 48000) ∧
      codecs.ac.channels ≤ 2 ∧
      (codecs.ac.channels = 1 →
        64000 ≤ codecs.ac.bit_rate ∧ codecs.ac.bit_rate ≤ 192000) ∧
      (codecs.ac.channels = 2 →
        64000 ≤ codecs.ac.bit_rate ∧ codecs.ac.bit_rate ≤ 384000)) ∧
    (is_mpeg_ps_es_audio_stream_mp2 ctx codecs = 0 ↔
      ¬ ((codecs.ac.codec_id = CODEC_ID_MP2 ∨ codecs.ac.codec_id = CODEC_ID_MP3) ∧
        (codecs.ac.sample_rate = 44100 ∨ codecs.ac.sample_rate = 48000) ∧
        codecs.ac.channels ≤ 2 ∧
        (codecs.ac.channels = 1 →
          64000 ≤ codecs.ac.bit_rate ∧ codecs.ac.bit_rate ≤ 192000) ∧
        (codecs.ac.channels = 2 →
          64000 ≤ codecs.ac.bit_rate ∧ codecs.ac.bit_rate ≤ 384000))) := by
  unfold is_mpeg_ps_es_audio_stream_mp2
  constructor <;> split_ifs <;> simp_all
  all_goals first | omega | tauto

/-- C16: `is_mpeg_ts_audio_stream_mp2` returns 1 if and only if the codec is
MPEG Layer-2 or Layer-3, the sample rate is 32000, 44100 or 48000, there are at
most 5 channels and the bit rate lies between 32000 and 448000; otherwise it
returns 0. -/
theorem is_mpeg_ts_audio_stream_mp2_iff (ctx : AVFormatContext) (codecs : av_codecs_t) :
    (is_mpeg_ts_audio_stream_mp2 ctx codecs = 1 ↔
      (codecs.ac.codec_id = CODEC_ID_MP2 ∨ codecs.ac.codec_id = CODEC_ID_MP3) ∧
      (codecs.ac.sample_rate = 32000 ∨ codecs.ac.sample_rate = 44100 ∨
        codecs.ac.sample_rate = 48000) ∧
      codecs.ac.channels ≤ 5 ∧ 32000 ≤ codecs.ac.bit_rate ∧
      codecs.ac.bit_rate ≤ 448000) ∧
    (is_mpeg_ts_audio_stream_mp2 ctx codecs = 0 ↔
      ¬ ((codecs.ac.codec_id = CODEC_ID_MP2 ∨ codecs.ac.codec_id = CODEC_ID_MP3) ∧
        (codecs.ac.sample_rate = 32000 ∨ codecs.ac.sample_rate = 44100 ∨
          codecs.ac.sample_rate = 48000) ∧
        codecs.ac.channels ≤ 5 ∧ 32000 ≤ codecs.ac.bit_rate ∧
        codecs.ac.bit_rate ≤ 448000)) := by
  unfold is_mpeg_ts_audio_stream_mp2
  constructor <;> split_ifs <;> simp_all
  all_goals first | omega | tauto

/-- C17: `is_mpeg_ts_audio_stream_ac3` returns 1 if and only if the codec is
AC-3, the sample rate is 32000, 44100 or 48000, there are at most 5 channels
and the bit rate lies between 32000 and 640000; otherwise it returns 0. -/
theorem is_mpeg_ts_audio_stream_ac3_iff (ctx : AVFormatContext) (codecs : av_codecs_t) :
    (is_mpeg_ts_audio_stream_ac3 ctx codecs = 1 ↔
      codecs.ac.codec_id = CODEC_ID_AC3 ∧
      (codecs.ac.sample_rate = 32000 ∨ codecs.ac.sample_rate = 44100 ∨
        codecs.ac.sample_rate = 48000) ∧
      codecs.ac.channels ≤ 5 ∧ 32000 ≤ codecs.ac.bit_rate ∧
      codecs.ac.bit_rate ≤ 640000) ∧
    (is_mpeg_ts_audio_stream_ac3 ctx codecs = 0 ↔
      ¬ (codecs.ac.codec_id = CODEC_ID_AC3 ∧
        (codecs.ac.sample_rate = 32000 ∨ codecs.ac.sample_rate = 44100 ∨
          codecs.ac.sample_rate = 48000) ∧
        codecs.ac.channels ≤ 5 ∧ 32000 ≤ codecs.ac.bit_rate ∧
        codecs.ac.bit_rate ≤ 640000)) := by
  unfold is_mpeg_ts_audio_stream_ac3
  constructor <;> split_ifs <;> simp_all
  all_goals omega

/-! ## Absent streams -/

/-- C18: an absent stream is a non-match. `audio_profile_guess_aac` applied to
an absent codec context returns `AUDIO_PROFILE_INVALID`; `probe_mpeg4` returns
no record when `audio_profile_get_codec` finds no audio stream, in particular
on a descriptor without audio stream; `probe_mpeg2` returns no record when
`av_profile_get_codecs` yields no codec pair, in particular on a descriptor
without audio stream or without video stream. -/
theorem absent_stream_is_no_match :
    audio_profile_guess_aac none = AUDIO_PROFILE_INVALID ∧
    (∀ (v : Int) (ctx : AVFormatContext),
      audio_profile_get_codec ctx = none → probe_mpeg4 v ctx = none) ∧
    (∀ (v : Int) (ctx : AVFormatContext), ctx.audio = none → probe_mpeg4 v ctx = none) ∧
    (∀ ctx : AVFormatContext, av_profile_get_codecs ctx = none → probe_mpeg2 ctx = none) ∧
    (∀ ctx : AVFormatContext, ctx.audio = none ∨ ctx.video = none →
      probe_mpeg2 ctx = none) := by
  have h4 : ∀ (v : Int) (ctx : AVFormatContext),
      audio_profile_get_codec ctx = none → probe_mpeg4 v ctx = none := by
    intro v ctx h
    simp only [probe_mpeg4, h]
  have h2 : ∀ ctx : AVFormatContext, av_profile_get_codecs ctx = none →
      probe_mpeg2 ctx = none := by
    intro ctx h
    simp only [probe_mpeg2, h, ite_self]
  refine ⟨rfl, h4, ?_, h2, ?_⟩
  · intro v ctx h
    exact h4 v ctx h
  · intro ctx h
    apply h2
    rcases h with h | h
    · simp only [av_profile_get_codecs, h]
    · cases ha : ctx.audio <;> simp only [av_profile_get_codecs, h, ha]

/-- Witness of C18: a transport stream with MPEG-2 video and no audio stream
gets no record from either classifier. -/
theorem absent_stream_is_no_match_witness :
    probe_mpeg4 1 video_only_descriptor = none ∧ probe_mpeg2 video_only_descriptor = none :=
  ⟨absent_stream_is_no_match.2.2.1 1 video_only_descriptor rfl,
   absent_stream_is_no_match.2.2.2.2 video_only_descriptor (Or.inl rfl)⟩

/-! ## Properties of the resolution tables -/

/-- C19: the ES/PS NTSC and PAL tables have 6 rows each, the EU-SD table has 5
rows, all with frame rate 25/1, the NA-SD table has 12 rows and the NA-HD table
16 rows, and no table holds the same row twice. -/
theorem resolution_tables_shape :
    mpeg_ps_es_valid_streams_ntsc.length = 6 ∧
    mpeg_ps_es_valid_streams_pal.length = 6 ∧
    mpeg_ts_valid_streams_eu_sd.length = 5 ∧
    (∀ row ∈ mpeg_ts_valid_streams_eu_sd, row.fps_num = 25 ∧ row.fps_den = 1) ∧
    mpeg_ts_valid_streams_na_sd.length = 12 ∧
    mpeg_ts_valid_streams_na_hd.length = 16 ∧
    mpeg_ps_es_valid_streams_ntsc.Nodup ∧
    mpeg_ps_es_valid_streams_pal.Nodup ∧
    mpeg_ts_valid_streams_eu_sd.Nodup ∧
    mpeg_ts_valid_streams_na_sd.Nodup ∧
    mpeg_ts_valid_streams_na_hd.Nodup := by
  refine ⟨rfl, rfl, rfl, ?_, rfl, rfl, ?_, ?_, ?_, ?_, ?_⟩
  · decide
  · decide
  · decide
  · decide
  · decide
  · decide

/-- C20 (counterexample): the row of index 12 of the NA-HD table is 1280x1080 at
30/1001, so not every row of the table has one of the three resolutions
1920x1080, 1440x1080 and 1280x720. -/
theorem na_hd_three_families_counterexample :
    mpeg_ts_valid_streams_na_hd[12]? = some ⟨1280, 1080, 30, 1001⟩ ∧
    ¬ (∀ row ∈ mpeg_ts_valid_streams_na_hd,
        (row.width = 1920 ∧ row.height = 1080) ∨ (row.width = 1440 ∧ row.height = 1080) ∨
        (row.width = 1280 ∧ row.height = 720)) := by
  constructor
  · rfl
  · decide

/-- C20 (amended): every row of the NA-HD table has one of the four resolutions
1920x1080, 1440x1080, 1280x720 and 1280x1080, and the frame rates (pairs of
`fps_num` and `fps_den`) that appear in the NA-HD table are those that appear
in the NA-SD table: 30/1001, 30/1, 24/1001 and 24/1. -/
theorem na_hd_four_families_and_frame_rates :
    (∀ row ∈ mpeg_ts_valid_streams_na_hd,
      (row.width = 1920 ∧ row.height = 1080) ∨ (row.width = 1440 ∧ row.height = 1080) ∨
      (row.width = 1280 ∧ row.height = 720) ∨ (row.width = 1280 ∧ row.height = 1080)) ∧
    (∀ row ∈ mpeg_ts_valid_streams_na_hd, ∃ other ∈ mpeg_ts_valid_streams_na_sd,
      other.fps_num = row.fps_num ∧ other.fps_den = row.fps_den) ∧
    (∀ row ∈ mpeg_ts_valid_streams_na_sd, ∃ other ∈ mpeg_ts_valid_streams_na_hd,
      other.fps_num = row.fps_num ∧ other.fps_den = row.fps_den) ∧
    (∀ row ∈ mpeg_ts_valid_streams_na_hd ++ mpeg_ts_valid_streams_na_sd,
      (row.fps_num, row.fps_den) ∈
        ([(30, 1001), (30, 1), (24, 1001), (24, 1)] : List (Int × Int))) := by
  refine ⟨?_, ?_, ?_, ?_⟩
  · decide
  · decide
  · decide
  · decide

/-! ## The table scans of `av_mpeg2.c` -/

/-- The loop of `probe_mpeg_ps_es` over a table decides by the audio stream
when the table has a row with the width and height of the video, and yields no
record otherwise. -/
theorem probe_mpeg_ps_es_scan_eq (rows : List mpeg_ps_es_stream_t) (ctx : AVFormatContext)
    (codecs : av_codecs_t) (plain xac3 : dlna_profile_t) :
    probe_mpeg_ps_es_scan rows ctx codecs plain xac3 =
      if ∃ row ∈ rows, row.width = codecs.vc.width ∧ row.height = codecs.vc.height then
        if is_mpeg_ps_es_audio_stream_extended_ac3 ctx codecs ≠ 0 then
          set_profile xac3
        else if is_mpeg_ps_es_audio_stream_lpcm ctx codecs ≠ 0 ∨
            is_mpeg_ps_es_audio_stream_ac3 ctx codecs ≠ 0 ∨
            is_mpeg_ps_es_audio_stream_mp2 ctx codecs ≠ 0 then
          set_profile plain
        else none
      else none := by
  induction rows with
  | nil => simp [probe_mpeg_ps_es_scan]
  | cons row rest ih =>
    by_cases hrow : row.width = codecs.vc.width ∧ row.height = codecs.vc.height
    · have hex : ∃ r ∈ row :: rest, r.width = codecs.vc.width ∧ r.height = codecs.vc.height :=
        ⟨row, List.mem_cons_self row rest, hrow⟩
      rw [if_pos hex]
      simp only [probe_mpeg_ps_es_scan, hrow, and_self, if_true]
    · have hiff : (∃ r ∈ row :: rest, r.width = codecs.vc.width ∧ r.height = codecs.vc.height) ↔
          ∃ r ∈ rest, r.width = codecs.vc.width ∧ r.height = codecs.vc.height := by
        constructor
        · rintro ⟨r, hr, hm⟩
          rcases List.mem_cons.mp hr with h | h
          · subst h
            exact absurd hm hrow
          · exact ⟨r, h, hm⟩
        · rintro ⟨r, hr, hm⟩
          exact ⟨r, List.mem_cons_of_mem row hr, hm⟩
      rw [probe_mpeg_ps_es_scan, if_neg hrow, ih]
      simp only [hiff]

/-- The loop of `probe_mpeg_ts` over the EU-SD table decides by the audio stream
and the container kind when the table has a row with the width and height of
the video and frame rate 25/1, and yields no record otherwise. -/
theorem probe_mpeg_ts_eu_scan_eq (rows : List mpeg_ts_stream_t) (ctx : AVFormatContext)
    (codecs : av_codecs_t) (st : dlna_container_type_t) :
    probe_mpeg_ts_eu_scan rows ctx codecs st =
      if ∃ row ∈ rows, row.width = codecs.vc.width ∧ row.height = codecs.vc.height ∧
          row.fps_num = 25 ∧ row.fps_den = 1 then
        if is_mpeg_ts_audio_stream_ac3 ctx codecs ≠ 0 ∨
            is_mpeg_ts_audio_stream_mp2 ctx codecs ≠ 0 then
          match st with
          | CT_MPEG_TRANSPORT_STREAM => set_profile mpeg_ts_sd_eu_iso
          | CT_MPEG_TRANSPORT_STREAM_DLNA => set_profile mpeg_ts_sd_eu_t
          | CT_MPEG_TRANSPORT_STREAM_DLNA_NO_TS => set_profile mpeg_ts_sd_eu
          | _ => none
        else none
      else none := by
  induction rows with
  | nil => simp [probe_mpeg_ts_eu_scan]
  | cons row rest ih =>
    by_cases hrow : row.width = codecs.vc.width ∧ row.height = codecs.vc.height ∧
        row.fps_num = 25 ∧ row.fps_den = 1
    · have hex : ∃ r ∈ row :: rest, r.width = codecs.vc.width ∧ r.height = codecs.vc.height ∧
          r.fps_num = 25 ∧ r.fps_den = 1 := ⟨row, List.mem_cons_self row rest, hrow⟩
      rw [if_pos hex, probe_mpeg_ts_eu_scan.eq_def]
      simp only [hrow, and_self, if_true]
    · have hiff : (∃ r ∈ row :: rest, r.width = codecs.vc.width ∧
            r.height = codecs.vc.height ∧ r.fps_num = 25 ∧ r.fps_den = 1) ↔
          ∃ r ∈ rest, r.width = codecs.vc.width ∧ r.height = codecs.vc.height ∧
            r.fps_num = 25 ∧ r.fps_den = 1 := by
        constructor
        · rintro ⟨r, hr, hm⟩
          rcases List.mem_cons.mp hr with h | h
          · subst h
            exact absurd hm hrow
          · exact ⟨r, h, hm⟩
        · rintro ⟨r, hr, hm⟩
          exact ⟨r, List.mem_cons_of_mem row hr, hm⟩
      rw [probe_mpeg_ts_eu_scan.eq_def]
      simp only [if_neg hrow, ih, hiff]

/-- A North America loop of `probe_mpeg_ts` in which no row matches ends without
a return, and the function goes on with `after`. -/
theorem probe_mpeg_ts_na_scan_no_match (rows : List mpeg_ts_stream_t) (codecs : av_codecs_t)
    (st : dlna_container_type_t) (xac3 : Int)
    (na_iso na_t na xac3_iso xac3_t xac3_na : dlna_profile_t)
    (after : Option dlna_profile_t)
    (h : ∀ row ∈ rows, ¬ (row.width = codecs.vc.width ∧ row.height = codecs.vc.height ∧
      row.fps_num = codecs.vs.r_frame_rate.num ∧
      row.fps_den = codecs.vs.r_frame_rate.num)) :
    probe_mpeg_ts_na_scan rows codecs st xac3 na_iso na_t na xac3_iso xac3_t xac3_na after =
      after := by
  induction rows with
  | nil => rfl
  | cons row rest ih =>
    have hrow := h row (List.mem_cons_self row rest)
    rw [probe_mpeg_ts_na_scan.eq_def]
    simp only [if_neg hrow]
    exact ih (fun r hr => h r (List.mem_cons_of_mem row hr))

/-- No row of the NA-SD table and no row of the NA-HD table has `fps_num` equal
to `fps_den`. -/
theorem na_tables_fps_num_ne_fps_den :
    (∀ row ∈ mpeg_ts_valid_streams_na_sd, row.fps_num ≠ row.fps_den) ∧
    (∀ row ∈ mpeg_ts_valid_streams_na_hd, row.fps_num ≠ row.fps_den) := by
  constructor <;> decide

/-- On a stream whose audio codec is not AAC and whose frame rate is not 25/1,
`probe_mpeg_ts` returns no record: past the gates, a row of a North America
table would have to equal `r_frame_rate.num` both in `fps_num` and in `fps_den`,
and no row has these two equal. -/
theorem probe_mpeg_ts_na_path_none (ctx : AVFormatContext) (codecs : av_codecs_t)
    (st : dlna_container_type_t) (haac : codecs.ac.codec_id ≠ CODEC_ID_AAC)
    (h25 : ¬ (codecs.vs.r_frame_rate.num = 25 ∧ codecs.vs.r_frame_rate.den = 1)) :
    probe_mpeg_ts ctx codecs st = none := by
  have hsd : ∀ row ∈ mpeg_ts_valid_streams_na_sd,
      ¬ (row.width = codecs.vc.width ∧ row.height = codecs.vc.height ∧
        row.fps_num = codecs.vs.r_frame_rate.num ∧
        row.fps_den = codecs.vs.r_frame_rate.num) := by
    intro row hrow hm
    exact na_tables_fps_num_ne_fps_den.1 row hrow (hm.2.2.1.trans hm.2.2.2.symm)
  have hhd : ∀ row ∈ mpeg_ts_valid_streams_na_hd,
      ¬ (row.width = codecs.vc.width ∧ row.height = codecs.vc.height ∧
        row.fps_num = codecs.vs.r_frame_rate.num ∧
        row.fps_den = codecs.vs.r_frame_rate.num) := by
    intro row hrow hm
    exact na_tables_fps_num_ne_fps_den.2 row hrow (hm.2.2.1.trans hm.2.2.2.symm)
  simp only [probe_mpeg_ts, if_neg haac, if_neg h25]
  rw [probe_mpeg_ts_na_scan_no_match _ _ _ _ _ _ _ _ _ _ _ hsd,
    probe_mpeg_ts_na_scan_no_match _ _ _ _ _ _ _ _ _ _ _ hhd]
  simp

/-! ## Properties of `probe_mpeg_ps_es` -/

/-- C21: `probe_mpeg_ps_es` selects the region by the frame rate alone
(30000/1001 for NTSC, 25/1 for PAL, no record for any other rate). Within the
region it returns the `_XAC3` record of the region when the resolution is a row
of the table of the region and the extended AC-3 validator accepts, the plain
record of the region when the resolution is a row of the table, the extended
AC-3 validator does not accept and one of the LPCM, AC-3 and MPEG audio
validators accepts, and no record in every other case. -/
theorem probe_mpeg_ps_es_decision (ctx : AVFormatContext) (codecs : av_codecs_t)
    (pal pal_xac3 ntsc ntsc_xac3 : dlna_profile_t) :
    probe_mpeg_ps_es ctx codecs pal pal_xac3 ntsc ntsc_xac3 =
      if codecs.vs.r_frame_rate.num = 30000 ∧ codecs.vs.r_frame_rate.den = 1001 then
        if ∃ row ∈ mpeg_ps_es_valid_streams_ntsc,
            row.width = codecs.vc.width ∧ row.height = codecs.vc.height then
          if is_mpeg_ps_es_audio_stream_extended_ac3 ctx codecs ≠ 0 then
            set_profile ntsc_xac3
          else if is_mpeg_ps_es_audio_stream_lpcm ctx codecs ≠ 0 ∨
              is_mpeg_ps_es_audio_stream_ac3 ctx codecs ≠ 0 ∨
              is_mpeg_ps_es_audio_stream_mp2 ctx codecs ≠ 0 then
            set_profile ntsc
          else none
        else none
      else if codecs.vs.r_frame_rate.num = 25 ∧ codecs.vs.r_frame_rate.den = 1 then
        if ∃ row ∈ mpeg_ps_es_valid_streams_pal,
            row.width = codecs.vc.width ∧ row.height = codecs.vc.height then
          if is_mpeg_ps_es_audio_stream_extended_ac3 ctx codecs ≠ 0 then
            set_profile pal_xac3
          else if is_mpeg_ps_es_audio_stream_lpcm ctx codecs ≠ 0 ∨
              is_mpeg_ps_es_audio_stream_ac3 ctx codecs ≠ 0 ∨
              is_mpeg_ps_es_audio_stream_mp2 ctx codecs ≠ 0 then
            set_profile pal
          else none
        else none
      else none := by
  unfold probe_mpeg_ps_es
  rw [probe_mpeg_ps_es_scan_eq, probe_mpeg_ps_es_scan_eq]

/-! ## Properties of `probe_mpeg_ts` -/

/-- The AAC branch of `probe_mpeg_ts`. -/
theorem probe_mpeg_ts_of_aac (ctx : AVFormatContext) (codecs : av_codecs_t)
    (st : dlna_container_type_t) (haac : codecs.ac.codec_id = CODEC_ID_AAC) :
    probe_mpeg_ts ctx codecs st =
      if codecs.vc.width ≠ 352 ∧ codecs.vc.height ≠ 288 then none
      else if codecs.vs.r_frame_rate.num ≠ 30 ∧ codecs.vs.r_frame_rate.den ≠ 1 then none
      else if codecs.vc.bit_rate > 4000000 then none
      else if codecs.ac.bit_rate > 256000 then none
      else
        match st with
        | CT_MPEG_TRANSPORT_STREAM => set_profile mpeg_ts_mp_ll_aac_iso
        | CT_MPEG_TRANSPORT_STREAM_DLNA => set_profile mpeg_ts_mp_ll_aac_t
        | CT_MPEG_TRANSPORT_STREAM_DLNA_NO_TS => set_profile mpeg_ts_mp_ll_aac
        | _ => none := by
  rw [probe_mpeg_ts.eq_def, if_pos haac]

/-- C22 (evaluation of the code): with AAC audio at 128000 bps and video of
352x480 at 25/1 with a video bit rate of 3000000 bps, in a plain transport
stream, `probe_mpeg_ts` returns the record `mpeg_ts_mp_ll_aac_iso`, although the
height is not 288 and the frame rate is not 30/1. -/
theorem probe_mpeg_ts_aac_352x480_record :
    aac_352x480_codecs.ac.codec_id = CODEC_ID_AAC ∧
    aac_352x480_codecs.vc.width = 352 ∧ aac_352x480_codecs.vc.height = 480 ∧
    aac_352x480_codecs.vs.r_frame_rate = { num := 25, den := 1 } ∧
    probe_mpeg_ts (av_descriptor CT_MPEG_TRANSPORT_STREAM 8000000 aac_352x480_codecs.ac
        aac_352x480_codecs.vs "movie.ts") aac_352x480_codecs CT_MPEG_TRANSPORT_STREAM =
      set_profile mpeg_ts_mp_ll_aac_iso := by
  decide

/-- C23: on a stream whose audio codec is AAC, `probe_mpeg_ts` returns no record
or one of the three records `mpeg_ts_mp_ll_aac`, `mpeg_ts_mp_ll_aac_t` and
`mpeg_ts_mp_ll_aac_iso`, for every frame rate, resolution, system bit rate and
container kind; so the id of a returned record is one of MPEG_TS_MP_LL_AAC,
MPEG_TS_MP_LL_AAC_T and MPEG_TS_MP_LL_AAC_ISO. -/
theorem probe_mpeg_ts_aac_short_circuit (ctx : AVFormatContext) (codecs : av_codecs_t)
    (st : dlna_container_type_t) (haac : codecs.ac.codec_id = CODEC_ID_AAC) :
    (probe_mpeg_ts ctx codecs st = none ∨
      probe_mpeg_ts ctx codecs st = set_profile mpeg_ts_mp_ll_aac ∨
      probe_mpeg_ts ctx codecs st = set_profile mpeg_ts_mp_ll_aac_t ∨
      probe_mpeg_ts ctx codecs st = set_profile mpeg_ts_mp_ll_aac_iso) ∧
    ∀ r, probe_mpeg_ts ctx codecs st = some r →
      r.id ∈ ["MPEG_TS_MP_LL_AAC", "MPEG_TS_MP_LL_AAC_T", "MPEG_TS_MP_LL_AAC_ISO"] := by
  have h : probe_mpeg_ts ctx codecs st = none ∨
      probe_mpeg_ts ctx codecs st = set_profile mpeg_ts_mp_ll_aac ∨
      probe_mpeg_ts ctx codecs st = set_profile mpeg_ts_mp_ll_aac_t ∨
      probe_mpeg_ts ctx codecs st = set_profile mpeg_ts_mp_ll_aac_iso := by
    rw [probe_mpeg_ts_of_aac ctx codecs st haac]
    split_ifs
    · exact Or.inl rfl
    · exact Or.inl rfl
    · exact Or.inl rfl
    · exact Or.inl rfl
    · cases st <;> simp
  refine ⟨h, ?_⟩
  intro r hr
  rw [hr] at h
  rcases h with h | h | h | h
  · exact absurd h (by simp)
  · simp only [set_profile, Option.some.injEq] at h
    subst h
    decide
  · simp only [set_profile, Option.some.injEq] at h
    subst h
    decide
  · simp only [set_profile, Option.some.injEq] at h
    subst h
    decide

/-- Witness of C23: AAC audio next to video of 352x576 at 25/1, a resolution of
the EU-SD table, in a transport stream with valid timestamp. -/
theorem probe_mpeg_ts_aac_short_circuit_witness :
    (probe_mpeg_ts (av_descriptor CT_MPEG_TRANSPORT_STREAM_DLNA 8000000
          aac_352x576_codecs.ac aac_352x576_codecs.vs "movie.ts")
        aac_352x576_codecs CT_MPEG_TRANSPORT_STREAM_DLNA = none ∨
      probe_mpeg_ts (av_descriptor CT_MPEG_TRANSPORT_STREAM_DLNA 8000000
          aac_352x576_codecs.ac aac_352x576_codecs.vs "movie.ts")
        aac_352x576_codecs CT_MPEG_TRANSPORT_STREAM_DLNA =
          set_profile mpeg_ts_mp_ll_aac ∨
      probe_mpeg_ts (av_descriptor CT_MPEG_TRANSPORT_STREAM_DLNA 8000000
          aac_352x576_codecs.ac aac_352x576_codecs.vs "movie.ts")
        aac_352x576_codecs CT_MPEG_TRANSPORT_STREAM_DLNA =
          set_profile mpeg_ts_mp_ll_aac_t ∨
      probe_mpeg_ts (av_descriptor CT_MPEG_TRANSPORT_STREAM_DLNA 8000000
          aac_352x576_codecs.ac aac_352x576_codecs.vs "movie.ts")
        aac_352x576_codecs CT_MPEG_TRANSPORT_STREAM_DLNA =
          set_profile mpeg_ts_mp_ll_aac_iso) ∧
    ∀ r, probe_mpeg_ts (av_descriptor CT_MPEG_TRANSPORT_STREAM_DLNA 8000000
          aac_352x576_codecs.ac aac_352x576_codecs.vs "movie.ts")
        aac_352x576_codecs CT_MPEG_TRANSPORT_STREAM_DLNA = some r →
      r.id ∈ ["MPEG_TS_MP_LL_AAC", "MPEG_TS_MP_LL_AAC_T", "MPEG_TS_MP_LL_AAC_ISO"] :=
  probe_mpeg_ts_aac_short_circuit _ aac_352x576_codecs CT_MPEG_TRANSPORT_STREAM_DLNA
    (by decide)

/-- Every row of the EU-SD table has frame rate 25/1, so a row of that table
matches a video as soon as it has its width and height. -/
theorem eu_sd_row_match_iff (w h : Int) :
    (∃ row ∈ mpeg_ts_valid_streams_eu_sd,
        row.width = w ∧ row.height = h ∧ row.fps_num = 25 ∧ row.fps_den = 1) ↔
      ∃ row ∈ mpeg_ts_valid_streams_eu_sd, row.width = w ∧ row.height = h := by
  have hfps : ∀ row ∈ mpeg_ts_valid_streams_eu_sd, row.fps_num = 25 ∧ row.fps_den = 1 := by
    decide
  constructor
  · rintro ⟨row, hrow, hw, hh, _⟩
    exact ⟨row, hrow, hw, hh⟩
  · rintro ⟨row, hrow, hw, hh⟩
    exact ⟨row, hrow, hw, hh, hfps row hrow⟩

/-- The Europe branch of `probe_mpeg_ts`: audio codec other than AAC, frame rate
25/1. -/
theorem probe_mpeg_ts_eu_path (ctx : AVFormatContext) (codecs : av_codecs_t)
    (st : dlna_container_type_t) (haac : codecs.ac.codec_id ≠ CODEC_ID_AAC)
    (h25 : codecs.vs.r_frame_rate.num = 25 ∧ codecs.vs.r_frame_rate.den = 1) :
    probe_mpeg_ts ctx codecs st =
      if (∃ row ∈ mpeg_ts_valid_streams_eu_sd,
            row.width = codecs.vc.width ∧ row.height = codecs.vc.height) ∧
          (is_mpeg_ts_audio_stream_ac3 ctx codecs ≠ 0 ∨
            is_mpeg_ts_audio_stream_mp2 ctx codecs ≠ 0) then
        match st with
        | CT_MPEG_TRANSPORT_STREAM => set_profile mpeg_ts_sd_eu_iso
        | CT_MPEG_TRANSPORT_STREAM_DLNA => set_profile mpeg_ts_sd_eu_t
        | CT_MPEG_TRANSPORT_STREAM_DLNA_NO_TS => set_profile mpeg_ts_sd_eu
        | _ => none
      else none := by
  rw [probe_mpeg_ts.eq_def, if_neg haac, if_pos h25, probe_mpeg_ts_eu_scan_eq]
  by_cases hrow : ∃ row ∈ mpeg_ts_valid_streams_eu_sd,
      row.width = codecs.vc.width ∧ row.height = codecs.vc.height
  · rw [if_pos ((eu_sd_row_match_iff _ _).mpr hrow)]
    by_cases haud : is_mpeg_ts_audio_stream_ac3 ctx codecs ≠ 0 ∨
        is_mpeg_ts_audio_stream_mp2 ctx codecs ≠ 0
    · rw [if_pos haud, if_pos ⟨hrow, haud⟩]
    · rw [if_neg haud, if_neg (fun hc => haud hc.2)]
  · rw [if_neg (fun hc => hrow ((eu_sd_row_match_iff _ _).mp hc)),
      if_neg (fun hc => hrow hc.1)]

/-- C24: on a transport stream whose audio codec is not AAC and whose frame
rate is 25/1, `probe_mpeg_ts` returns the EU-SD record of the container kind
(`_ISO` for the plain transport stream, `_T` with valid timestamp, no suffix
without timestamp) when the width and height are a row of the EU-SD table and
the transport-stream AC-3 validator or MPEG audio validator accepts, and no
record otherwise; a record is returned if and only if both conditions hold, and
the id of a returned record is an EU-SD one. -/
theorem probe_mpeg_ts_europe (ctx : AVFormatContext) (codecs : av_codecs_t)
    (st : dlna_container_type_t) (haac : codecs.ac.codec_id ≠ CODEC_ID_AAC)
    (h25 : codecs.vs.r_frame_rate.num = 25 ∧ codecs.vs.r_frame_rate.den = 1)
    (hst : st = CT_MPEG_TRANSPORT_STREAM ∨ st = CT_MPEG_TRANSPORT_STREAM_DLNA ∨
      st = CT_MPEG_TRANSPORT_STREAM_DLNA_NO_TS) :
    (probe_mpeg_ts ctx codecs st =
      if (∃ row ∈ mpeg_ts_valid_streams_eu_sd,
            row.width = codecs.vc.width ∧ row.height = codecs.vc.height) ∧
          (is_mpeg_ts_audio_stream_ac3 ctx codecs ≠ 0 ∨
            is_mpeg_ts_audio_stream_mp2 ctx codecs ≠ 0) then
        match st with
        | CT_MPEG_TRANSPORT_STREAM => set_profile mpeg_ts_sd_eu_iso
        | CT_MPEG_TRANSPORT_STREAM_DLNA => set_profile mpeg_ts_sd_eu_t
        | CT_MPEG_TRANSPORT_STREAM_DLNA_NO_TS => set_profile mpeg_ts_sd_eu
        | _ => none
      else none) ∧
    ((probe_mpeg_ts ctx codecs st).isSome ↔
      (∃ row ∈ mpeg_ts_valid_streams_eu_sd,
          row.width = codecs.vc.width ∧ row.height = codecs.vc.height) ∧
        (is_mpeg_ts_audio_stream_ac3 ctx codecs ≠ 0 ∨
          is_mpeg_ts_audio_stream_mp2 ctx codecs ≠ 0)) ∧
    ∀ r, probe_mpeg_ts ctx codecs st = some r →
      r.id ∈ ["MPEG_TS_SD_EU_ISO", "MPEG_TS_SD_EU_T", "MPEG_TS_SD_EU"] := by
  have heq := probe_mpeg_ts_eu_path ctx codecs st haac h25
  refine ⟨heq, ?_, ?_⟩
  · rw [heq]
    split_ifs with hc
    · rcases hst with h | h | h <;> subst h <;> simp [set_profile, hc]
    · simp [hc]
  · intro r hr
    rw [heq] at hr
    split_ifs at hr with hc
    rcases hst with h | h | h <;> subst h <;>
      simp only [set_profile, Option.some.injEq] at hr <;> subst hr <;> decide

/-- Witness of C24: AC-3 audio next to video of 720x576 at 25/1 in a plain
transport stream. -/
theorem probe_mpeg_ts_europe_witness :
    probe_mpeg_ts (av_descriptor CT_MPEG_TRANSPORT_STREAM 8000000 ac3_720x576_codecs.ac
        ac3_720x576_codecs.vs "movie.ts") ac3_720x576_codecs CT_MPEG_TRANSPORT_STREAM =
      set_profile mpeg_ts_sd_eu_iso :=
  ((probe_mpeg_ts_europe (av_descriptor CT_MPEG_TRANSPORT_STREAM 8000000
      ac3_720x576_codecs.ac ac3_720x576_codecs.vs "movie.ts") ac3_720x576_codecs
      CT_MPEG_TRANSPORT_STREAM (by decide) (by decide) (Or.inl rfl)).1).trans (by decide)

/-- C26: on a transport stream whose audio codec is not AAC and whose frame
rate is not 25/1, `probe_mpeg_ts` returns no record whenever the overall bit
rate exceeds 19392700, or the audio codec is not AC-3, or the sample rate is
not 48000, or there are more than 5 channels, or the audio bit rate exceeds
640000. -/
theorem probe_mpeg_ts_na_gates (ctx : AVFormatContext) (codecs : av_codecs_t)
    (st : dlna_container_type_t) (haac : codecs.ac.codec_id ≠ CODEC_ID_AAC)
    (h25 : ¬ (codecs.vs.r_frame_rate.num = 25 ∧ codecs.vs.r_frame_rate.den = 1))
    (hgate : ctx.bit_rate > 19392700 ∨ codecs.ac.codec_id ≠ CODEC_ID_AC3 ∨
      codecs.ac.sample_rate ≠ 48000 ∨ codecs.ac.channels > 5 ∨
      codecs.ac.bit_rate > 640000) :
    probe_mpeg_ts ctx codecs st = none := by
  rw [probe_mpeg_ts.eq_def, if_neg haac, if_neg h25]
  by_cases h1 : ctx.bit_rate > 19392700
  · rw [if_pos h1]
  · rw [if_neg h1]
    by_cases h2 : codecs.ac.codec_id ≠ CODEC_ID_AC3
    · rw [if_pos h2]
    · rw [if_neg h2]
      by_cases h3 : codecs.ac.sample_rate ≠ 48000
      · rw [if_pos h3]
      · rw [if_neg h3]
        by_cases h4 : codecs.ac.channels > 5
        · rw [if_pos h4]
        · rw [if_neg h4]
          have h5 : codecs.ac.bit_rate > 640000 := by
            rcases hgate with h | h | h | h | h
            · exact absurd h h1
            · exact absurd h h2
            · exact absurd h h3
            · exact absurd h h4
            · exact h
          simp only [if_pos h5]

/-- Witness of C26: AC-3 audio next to video of 720x480 at 30/1001 in a file
whose overall bit rate is 20000000. -/
theorem probe_mpeg_ts_na_gates_witness :
    probe_mpeg_ts (av_descriptor CT_MPEG_TRANSPORT_STREAM 20000000
        (ac3_720x480_codecs 384000).ac (ac3_720x480_codecs 384000).vs "movie.ts")
      (ac3_720x480_codecs 384000) CT_MPEG_TRANSPORT_STREAM = none :=
  probe_mpeg_ts_na_gates _ (ac3_720x480_codecs 384000) CT_MPEG_TRANSPORT_STREAM
    (by decide) (by decide) (Or.inl (by decide))

/-- C27 (evaluation of the code): AC-3 audio at 48000 Hz, 2 channels, 384000 bps
next to video of 720x480 at 30/1001, which is the first row of the NA-SD table,
in a plain transport stream of overall bit rate 10000000, passes every NA/KO
gate, and `probe_mpeg_ts` returns no record. -/
theorem probe_mpeg_ts_na_sd_row_no_record :
    (⟨(ac3_720x480_codecs 384000).vc.width, (ac3_720x480_codecs 384000).vc.height,
        (ac3_720x480_codecs 384000).vs.r_frame_rate.num,
        (ac3_720x480_codecs 384000).vs.r_frame_rate.den⟩ : mpeg_ts_stream_t) ∈
      mpeg_ts_valid_streams_na_sd ∧
    (ac3_720x480_codecs 384000).ac.codec_id = CODEC_ID_AC3 ∧
    (ac3_720x480_codecs 384000).ac.sample_rate = 48000 ∧
    (ac3_720x480_codecs 384000).ac.channels ≤ 5 ∧
    (ac3_720x480_codecs 384000).ac.bit_rate ≤ 640000 ∧
    probe_mpeg_ts (av_descriptor CT_MPEG_TRANSPORT_STREAM 10000000
        (ac3_720x480_codecs 384000).ac (ac3_720x480_codecs 384000).vs "movie.ts")
      (ac3_720x480_codecs 384000) CT_MPEG_TRANSPORT_STREAM = none := by
  decide

/-- C29 (evaluation of the code): the same stream with an AC-3 bit rate of
500000, above 448000 and within 640000, gets no record from `probe_mpeg_ts`
either, in place of the `_XAC3` record of the NA-SD row. -/
theorem probe_mpeg_ts_xac3_no_record :
    (⟨(ac3_720x480_codecs 500000).vc.width, (ac3_720x480_codecs 500000).vc.height,
        (ac3_720x480_codecs 500000).vs.r_frame_rate.num,
        (ac3_720x480_codecs 500000).vs.r_frame_rate.den⟩ : mpeg_ts_stream_t) ∈
      mpeg_ts_valid_streams_na_sd ∧
    (ac3_720x480_codecs 500000).ac.bit_rate = 500000 ∧
    probe_mpeg_ts (av_descriptor CT_MPEG_TRANSPORT_STREAM_DLNA 10000000
        (ac3_720x480_codecs 500000).ac (ac3_720x480_codecs 500000).vs "movie.ts")
      (ac3_720x480_codecs 500000) CT_MPEG_TRANSPORT_STREAM_DLNA = none := by
  decide

/-! ## Properties of `probe_mpeg2` -/

/-- The result of `probe_mpeg2` on a descriptor with an accepted file name, an
audio stream and an MPEG-2 video stream. -/
theorem probe_mpeg2_of_streams (ctx : AVFormatContext) (ac : AVCodecContext) (vs : AVStream)
    (hext : match_file_extension ctx.filename MPEG2_KNOWN_EXTENSIONS = true)
    (ha : ctx.audio = some ac) (hv : ctx.video = some vs)
    (hvc : vs.codec.codec_id = CODEC_ID_MPEG2VIDEO) :
    probe_mpeg2 ctx =
      match ctx.container with
      | CT_MPEG_ELEMENTARY_STREAM => probe_mpeg_es ctx (codec_pair ac vs)
      | CT_MPEG_PROGRAM_STREAM => probe_mpeg_ps ctx (codec_pair ac vs)
      | CT_MPEG_TRANSPORT_STREAM =>
        probe_mpeg_ts ctx (codec_pair ac vs) CT_MPEG_TRANSPORT_STREAM
      | CT_MPEG_TRANSPORT_STREAM_DLNA =>
        probe_mpeg_ts ctx (codec_pair ac vs) CT_MPEG_TRANSPORT_STREAM_DLNA
      | CT_MPEG_TRANSPORT_STREAM_DLNA_NO_TS =>
        probe_mpeg_ts ctx (codec_pair ac vs) CT_MPEG_TRANSPORT_STREAM_DLNA_NO_TS
      | _ => none := by
  simp only [probe_mpeg2, hext, av_profile_get_codecs, ha, hv, hvc, stream_get_container,
    codec_pair, not_true_eq_false, ne_eq, if_false]

/-- C25 (counterexample): a transport stream with valid timestamp, MPEG-2 video
of 720x576 at 25/1 and AC-3 audio at 48000 Hz, 2 channels, 384000 bps, whose
file name is movie.avi, gets no record from `probe_mpeg2`: the extension is not
in the list of the family. -/
theorem probe_mpeg2_region_disambiguation_counterexample :
    (av_descriptor CT_MPEG_TRANSPORT_STREAM_DLNA 8000000 ac3_context
        (mpeg2_video_stream 720 576 25 1) "movie.avi").container =
      CT_MPEG_TRANSPORT_STREAM_DLNA ∧
    (mpeg2_video_stream 720 576 25 1).codec.codec_id = CODEC_ID_MPEG2VIDEO ∧
    (mpeg2_video_stream 720 576 25 1).r_frame_rate = { num := 25, den := 1 } ∧
    (∃ row ∈ mpeg_ts_valid_streams_eu_sd,
      row.width = (mpeg2_video_stream 720 576 25 1).codec.width ∧
      row.height = (mpeg2_video_stream 720 576 25 1).codec.height) ∧
    ac3_context.codec_id = CODEC_ID_AC3 ∧ ac3_context.sample_rate = 48000 ∧
    ac3_context.channels ≤ 5 ∧ 64000 ≤ ac3_context.bit_rate ∧
    ac3_context.bit_rate ≤ 448000 ∧
    probe_mpeg2 (av_descriptor CT_MPEG_TRANSPORT_STREAM_DLNA 8000000 ac3_context
        (mpeg2_video_stream 720 576 25 1) "movie.avi") = none ∧
    probe_mpeg2 (av_descriptor CT_MPEG_TRANSPORT_STREAM_DLNA 8000000 ac3_context
        (mpeg2_video_stream 720 576 25 1) "movie.avi") ≠
      set_profile mpeg_ts_sd_eu_t := by
  decide

/-- C25 (amended): for every descriptor whose file name has an extension of the
MPEG-2 list, with the container kind `CT_MPEG_TRANSPORT_STREAM_DLNA`, MPEG-2
video at frame rate 25/1 whose width and height are a row of the EU-SD table,
and AC-3 audio at 48000 Hz with at most 5 channels and a bit rate between 64000
and 448000, `probe_mpeg2` returns the record `mpeg_ts_sd_eu_t`, whose id is
MPEG_TS_SD_EU_T. -/
theorem probe_mpeg2_region_disambiguation (ctx : AVFormatContext) (ac : AVCodecContext)
    (vs : AVStream)
    (hext : match_file_extension ctx.filename MPEG2_KNOWN_EXTENSIONS = true)
    (hk : ctx.container = CT_MPEG_TRANSPORT_STREAM_DLNA)
    (ha : ctx.audio = some ac) (hv : ctx.video = some vs)
    (hvc : vs.codec.codec_id = CODEC_ID_MPEG2VIDEO)
    (h25 : vs.r_frame_rate.num = 25 ∧ vs.r_frame_rate.den = 1)
    (hres : ∃ row ∈ mpeg_ts_valid_streams_eu_sd,
      row.width = vs.codec.width ∧ row.height = vs.codec.height)
    (hac3 : ac.codec_id = CODEC_ID_AC3) (hsr : ac.sample_rate = 48000)
    (hch : ac.channels ≤ 5) (hlo : 64000 ≤ ac.bit_rate) (hhi : ac.bit_rate ≤ 448000) :
    probe_mpeg2 ctx = set_profile mpeg_ts_sd_eu_t ∧
      Option.map dlna_profile_t.id (probe_mpeg2 ctx) = some "MPEG_TS_SD_EU_T" := by
  have haud : is_mpeg_ts_audio_stream_ac3 ctx (codec_pair ac vs) ≠ 0 := by
    have h1 : ¬ ac.channels > 5 := by omega
    have h2 : ¬ (ac.bit_rate < 32000 ∨ ac.bit_rate > 640000) := by omega
    simp [is_mpeg_ts_audio_stream_ac3, codec_pair, hac3, hsr, h1, h2]
  have hne : (codec_pair ac vs).ac.codec_id ≠ CODEC_ID_AAC := by
    simp [codec_pair, hac3]
  have hp : probe_mpeg2 ctx = set_profile mpeg_ts_sd_eu_t := by
    rw [probe_mpeg2_of_streams ctx ac vs hext ha hv hvc, hk]
    simp only []
    rw [probe_mpeg_ts_eu_path ctx (codec_pair ac vs) _ hne h25, if_pos ⟨hres, Or.inl haud⟩]
  refine ⟨hp, ?_⟩
  rw [hp]
  rfl

/-- Witness of C25: the stream of the counterexample under the file name
movie.ts. -/
theorem probe_mpeg2_region_disambiguation_witness :
    probe_mpeg2 (av_descriptor CT_MPEG_TRANSPORT_STREAM_DLNA 8000000 ac3_context
        (mpeg2_video_stream 720 576 25 1) "movie.ts") =
      set_profile mpeg_ts_sd_eu_t ∧
    Option.map dlna_profile_t.id (probe_mpeg2 (av_descriptor CT_MPEG_TRANSPORT_STREAM_DLNA
        8000000 ac3_context (mpeg2_video_stream 720 576 25 1) "movie.ts")) =
      some "MPEG_TS_SD_EU_T" :=
  probe_mpeg2_region_disambiguation
    (av_descriptor CT_MPEG_TRANSPORT_STREAM_DLNA 8000000 ac3_context
      (mpeg2_video_stream 720 576 25 1) "movie.ts")
    ac3_context (mpeg2_video_stream 720 576 25 1) (by decide) rfl rfl rfl rfl
    (by decide) (by decide) rfl rfl (by decide) (by decide) (by decide)

/-- C28 (evaluation of the code): on the descriptor of the end-to-end scenario
(transport stream with valid timestamp, system bit rate 15000000, MPEG-2 video
1920x1080 at 30000/1001, AC-3 audio at 48000 Hz, 2 channels, 384000 bps)
`probe_mpeg2` returns no record, under the accepted file name movie.ts and
under every other file name. -/
theorem probe_mpeg2_hd_na_end_to_end_no_record :
    match_file_extension (hd_na_descriptor "movie.ts").filename MPEG2_KNOWN_EXTENSIONS =
      true ∧
    probe_mpeg2 (hd_na_descriptor "movie.ts") = none ∧
    ∀ filename : String, probe_mpeg2 (hd_na_descriptor filename) = none := by
  have hall : ∀ filename : String, probe_mpeg2 (hd_na_descriptor filename) = none := by
    intro filename
    by_cases hext : match_file_extension (hd_na_descriptor filename).filename
        MPEG2_KNOWN_EXTENSIONS = true
    · rw [probe_mpeg2_of_streams (hd_na_descriptor filename) ac3_context
        (mpeg2_video_stream 1920 1080 30000 1001) hext rfl rfl rfl]
      exact probe_mpeg_ts_na_path_none _ _ _ (by decide) (by decide)
    · rw [probe_mpeg2.eq_def, if_pos hext]
  exact ⟨by decide, hall "movie.ts", hall⟩

/-- A video whose width and height are a row of neither program/elementary
stream table gets no record from `probe_mpeg_ps_es`. -/
theorem probe_mpeg_ps_es_none_of_resolution (ctx : AVFormatContext) (codecs : av_codecs_t)
    (pal pal_xac3 ntsc ntsc_xac3 : dlna_profile_t)
    (hntsc : ∀ row ∈ mpeg_ps_es_valid_streams_ntsc,
      ¬ (row.width = codecs.vc.width ∧ row.height = codecs.vc.height))
    (hpal : ∀ row ∈ mpeg_ps_es_valid_streams_pal,
      ¬ (row.width = codecs.vc.width ∧ row.height = codecs.vc.height)) :
    probe_mpeg_ps_es ctx codecs pal pal_xac3 ntsc ntsc_xac3 = none := by
  have h1 : ¬ ∃ row ∈ mpeg_ps_es_valid_streams_ntsc,
      row.width = codecs.vc.width ∧ row.height = codecs.vc.height := by
    rintro ⟨row, hrow, hm⟩
    exact hntsc row hrow hm
  have h2 : ¬ ∃ row ∈ mpeg_ps_es_valid_streams_pal,
      row.width = codecs.vc.width ∧ row.height = codecs.vc.height := by
    rintro ⟨row, hrow, hm⟩
    exact hpal row hrow hm
  unfold probe_mpeg_ps_es
  rw [probe_mpeg_ps_es_scan_eq, probe_mpeg_ps_es_scan_eq, if_neg h1, if_neg h2]
  simp

/-- A video whose width and height are a row of none of the three transport
stream tables, next to audio other than AAC, gets no record from
`probe_mpeg_ts`. -/
theorem probe_mpeg_ts_none_of_resolution (ctx : AVFormatContext) (codecs : av_codecs_t)
    (st : dlna_container_type_t) (haac : codecs.ac.codec_id ≠ CODEC_ID_AAC)
    (heu : ∀ row ∈ mpeg_ts_valid_streams_eu_sd,
      ¬ (row.width = codecs.vc.width ∧ row.height = codecs.vc.height))
    (hsd : ∀ row ∈ mpeg_ts_valid_streams_na_sd,
      ¬ (row.width = codecs.vc.width ∧ row.height = codecs.vc.height))
    (hhd : ∀ row ∈ mpeg_ts_valid_streams_na_hd,
      ¬ (row.width = codecs.vc.width ∧ row.height = codecs.vc.height)) :
    probe_mpeg_ts ctx codecs st = none := by
  by_cases h25 : codecs.vs.r_frame_rate.num = 25 ∧ codecs.vs.r_frame_rate.den = 1
  · rw [probe_mpeg_ts_eu_path ctx codecs st haac h25]
    have hno : ¬ ((∃ row ∈ mpeg_ts_valid_streams_eu_sd,
          row.width = codecs.vc.width ∧ row.height = codecs.vc.height) ∧
        (is_mpeg_ts_audio_stream_ac3 ctx codecs ≠ 0 ∨
          is_mpeg_ts_audio_stream_mp2 ctx codecs ≠ 0)) := by
      rintro ⟨⟨row, hrow, hm⟩, _⟩
      exact heu row hrow hm
    rw [if_neg hno]
  · have hsd4 : ∀ row ∈ mpeg_ts_valid_streams_na_sd,
        ¬ (row.width = codecs.vc.width ∧ row.height = codecs.vc.height ∧
          row.fps_num = codecs.vs.r_frame_rate.num ∧
          row.fps_den = codecs.vs.r_frame_rate.num) :=
      fun row hrow hm => hsd row hrow ⟨hm.1, hm.2.1⟩
    have hhd4 : ∀ row ∈ mpeg_ts_valid_streams_na_hd,
        ¬ (row.width = codecs.vc.width ∧ row.height = codecs.vc.height ∧
          row.fps_num = codecs.vs.r_frame_rate.num ∧
          row.fps_den = codecs.vs.r_frame_rate.num) :=
      fun row hrow hm => hhd row hrow ⟨hm.1, hm.2.1⟩
    simp only [probe_mpeg_ts, if_neg haac, if_neg h25]
    rw [probe_mpeg_ts_na_scan_no_match _ _ _ _ _ _ _ _ _ _ _ hsd4,
      probe_mpeg_ts_na_scan_no_match _ _ _ _ _ _ _ _ _ _ _ hhd4]
    simp

/-- C30: a descriptor with MPEG-2 video of 640x360 and AC-3 audio gets no record
from `probe_mpeg2`, for every container kind, frame rate, system bit rate and
file name; more generally, a descriptor whose audio codec is not AAC and whose
video width and height are a row of none of the five tables gets no record. -/
theorem probe_mpeg2_resolution_outside_tables :
    (∀ (ctx : AVFormatContext) (ac : AVCodecContext) (vs : AVStream),
      ctx.audio = some ac → ctx.video = some vs → ac.codec_id = CODEC_ID_AC3 →
      vs.codec.width = 640 → vs.codec.height = 360 → probe_mpeg2 ctx = none) ∧
    (∀ (ctx : AVFormatContext) (ac : AVCodecContext) (vs : AVStream),
      ctx.audio = some ac → ctx.video = some vs → ac.codec_id ≠ CODEC_ID_AAC →
      (∀ row ∈ mpeg_ps_es_valid_streams_ntsc,
        ¬ (row.width = vs.codec.width ∧ row.height = vs.codec.height)) →
      (∀ row ∈ mpeg_ps_es_valid_streams_pal,
        ¬ (row.width = vs.codec.width ∧ row.height = vs.codec.height)) →
      (∀ row ∈ mpeg_ts_valid_streams_eu_sd,
        ¬ (row.width = vs.codec.width ∧ row.height = vs.codec.height)) →
      (∀ row ∈ mpeg_ts_valid_streams_na_sd,
        ¬ (row.width = vs.codec.width ∧ row.height = vs.codec.height)) →
      (∀ row ∈ mpeg_ts_valid_streams_na_hd,
        ¬ (row.width = vs.codec.width ∧ row.height = vs.codec.height)) →
      probe_mpeg2 ctx = none) := by
  have general : ∀ (ctx : AVFormatContext) (ac : AVCodecContext) (vs : AVStream),
      ctx.audio = some ac → ctx.video = some vs → ac.codec_id ≠ CODEC_ID_AAC →
      (∀ row ∈ mpeg_ps_es_valid_streams_ntsc,
        ¬ (row.width = vs.codec.width ∧ row.height = vs.codec.height)) →
      (∀ row ∈ mpeg_ps_es_valid_streams_pal,
        ¬ (row.width = vs.codec.width ∧ row.height = vs.codec.height)) →
      (∀ row ∈ mpeg_ts_valid_streams_eu_sd,
        ¬ (row.width = vs.codec.width ∧ row.height = vs.codec.height)) →
      (∀ row ∈ mpeg_ts_valid_streams_na_sd,
        ¬ (row.width = vs.codec.width ∧ row.height = vs.codec.height)) →
      (∀ row ∈ mpeg_ts_valid_streams_na_hd,
        ¬ (row.width = vs.codec.width ∧ row.height = vs.codec.height)) →
      probe_mpeg2 ctx = none := by
    intro ctx ac vs ha hv haac hntsc hpal heu hsd hhd
    by_cases hext : match_file_extension ctx.filename MPEG2_KNOWN_EXTENSIONS = true
    · by_cases hvc : vs.codec.codec_id = CODEC_ID_MPEG2VIDEO
      · rw [probe_mpeg2_of_streams ctx ac vs hext ha hv hvc]
        have hts : ∀ st, probe_mpeg_ts ctx (codec_pair ac vs) st = none :=
          fun st => probe_mpeg_ts_none_of_resolution ctx (codec_pair ac vs) st haac
            heu hsd hhd
        have hes : probe_mpeg_es ctx (codec_pair ac vs) = none :=
          probe_mpeg_ps_es_none_of_resolution ctx (codec_pair ac vs) _ _ _ _ hntsc hpal
        have hps : probe_mpeg_ps ctx (codec_pair ac vs) = none :=
          probe_mpeg_ps_es_none_of_resolution ctx (codec_pair ac vs) _ _ _ _ hntsc hpal
        cases ctx.container <;> simp only [hts, hes, hps]
      · simp only [probe_mpeg2, av_profile_get_codecs, ha, hv, ne_eq, hvc,
          not_false_eq_true, if_true, ite_self]
    · rw [probe_mpeg2.eq_def, if_pos hext]
  refine ⟨?_, general⟩
  intro ctx ac vs ha hv hac3 hw hh
  have haac : ac.codec_id ≠ CODEC_ID_AAC := by
    rw [hac3]
    decide
  apply general ctx ac vs ha hv haac <;> rw [hw, hh] <;> decide

/-- Witness of C30: MPEG-2 video of 640x360 at 25/1 next to AC-3 audio in a
plain transport stream named movie.ts. -/
theorem probe_mpeg2_resolution_outside_tables_witness :
    probe_mpeg2 (av_descriptor CT_MPEG_TRANSPORT_STREAM 8000000 ac3_context
      (mpeg2_video_stream 640 360 25 1) "movie.ts") = none :=
  probe_mpeg2_resolution_outside_tables.1
    (av_descriptor CT_MPEG_TRANSPORT_STREAM 8000000 ac3_context
      (mpeg2_video_stream 640 360 25 1) "movie.ts")
    ac3_context (mpeg2_video_stream 640 360 25 1) rfl rfl rfl rfl rfl

/-! ## The records a classifier can return -/

/-- The results of `probe_mpeg_ts`: no record, or, keyed by the container kind,
the record of the AAC branch or the record of the Europe branch. -/
theorem probe_mpeg_ts_cases (ctx : AVFormatContext) (codecs : av_codecs_t)
    (st : dlna_container_type_t) :
    probe_mpeg_ts ctx codecs st = none ∨
    (st = CT_MPEG_TRANSPORT_STREAM ∧
      (probe_mpeg_ts ctx codecs st = set_profile mpeg_ts_mp_ll_aac_iso ∨
       probe_mpeg_ts ctx codecs st = set_profile mpeg_ts_sd_eu_iso)) ∨
    (st = CT_MPEG_TRANSPORT_STREAM_DLNA ∧
      (probe_mpeg_ts ctx codecs st = set_profile mpeg_ts_mp_ll_aac_t ∨
       probe_mpeg_ts ctx codecs st = set_profile mpeg_ts_sd_eu_t)) ∨
    (st = CT_MPEG_TRANSPORT_STREAM_DLNA_NO_TS ∧
      (probe_mpeg_ts ctx codecs st = set_profile mpeg_ts_mp_ll_aac ∨
       probe_mpeg_ts ctx codecs st = set_profile mpeg_ts_sd_eu)) := by
  by_cases haac : codecs.ac.codec_id = CODEC_ID_AAC
  · rw [probe_mpeg_ts_of_aac ctx codecs st haac]
    split_ifs
    · exact Or.inl rfl
    · exact Or.inl rfl
    · exact Or.inl rfl
    · exact Or.inl rfl
    · cases st <;> simp
  · by_cases h25 : codecs.vs.r_frame_rate.num = 25 ∧ codecs.vs.r_frame_rate.den = 1
    · rw [probe_mpeg_ts_eu_path ctx codecs st haac h25]
      split_ifs
      · cases st <;> simp
      · exact Or.inl rfl
    · exact Or.inl (probe_mpeg_ts_na_path_none ctx codecs st haac h25)

/-- The results of `probe_mpeg_ps_es`: no record, an `_XAC3` record when the
extended AC-3 validator accepts, or a plain record when it does not and one of
the three other validators accepts. -/
theorem probe_mpeg_ps_es_cases (ctx : AVFormatContext) (codecs : av_codecs_t)
    (pal pal_xac3 ntsc ntsc_xac3 : dlna_profile_t) :
    probe_mpeg_ps_es ctx codecs pal pal_xac3 ntsc ntsc_xac3 = none ∨
    (is_mpeg_ps_es_audio_stream_extended_ac3 ctx codecs ≠ 0 ∧
      (probe_mpeg_ps_es ctx codecs pal pal_xac3 ntsc ntsc_xac3 =
          set_profile ntsc_xac3 ∨
       probe_mpeg_ps_es ctx codecs pal pal_xac3 ntsc ntsc_xac3 =
          set_profile pal_xac3)) ∨
    (is_mpeg_ps_es_audio_stream_extended_ac3 ctx codecs = 0 ∧
      (is_mpeg_ps_es_audio_stream_lpcm ctx codecs ≠ 0 ∨
        is_mpeg_ps_es_audio_stream_ac3 ctx codecs ≠ 0 ∨
        is_mpeg_ps_es_audio_stream_mp2 ctx codecs ≠ 0) ∧
      (probe_mpeg_ps_es ctx codecs pal pal_xac3 ntsc ntsc_xac3 =
          set_profile ntsc ∨
       probe_mpeg_ps_es ctx codecs pal pal_xac3 ntsc ntsc_xac3 =
          set_profile pal)) := by
  unfold probe_mpeg_ps_es
  rw [probe_mpeg_ps_es_scan_eq, probe_mpeg_ps_es_scan_eq]
  split_ifs with h1 h2 h3 h4 h5 h6 h7 h8
  · exact Or.inr (Or.inl ⟨h3, Or.inl rfl⟩)
  · exact Or.inr (Or.inr ⟨not_not.mp h3, h4, Or.inl rfl⟩)
  · exact Or.inl rfl
  · exact Or.inl rfl
  · exact Or.inr (Or.inl ⟨h7, Or.inr rfl⟩)
  · exact Or.inr (Or.inr ⟨not_not.mp h7, h8, Or.inr rfl⟩)
  · exact Or.inl rfl
  · exact Or.inl rfl
  · exact Or.inl rfl

/-- The results of `probe_mpeg2`: no record, or the result of one of the three
branch classifiers on the codec pair of the descriptor. -/
theorem probe_mpeg2_cases (ctx : AVFormatContext) :
    probe_mpeg2 ctx = none ∨
    ∃ codecs, av_profile_get_codecs ctx = some codecs ∧
      (probe_mpeg2 ctx = probe_mpeg_es ctx codecs ∨
       probe_mpeg2 ctx = probe_mpeg_ps ctx codecs ∨
       ∃ st, probe_mpeg2 ctx = probe_mpeg_ts ctx codecs st) := by
  by_cases hext : ¬ match_file_extension ctx.filename MPEG2_KNOWN_EXTENSIONS = true
  · left
    rw [probe_mpeg2.eq_def, if_pos hext]
  · cases hc : av_profile_get_codecs ctx with
    | none =>
      left
      rw [probe_mpeg2.eq_def, if_neg hext]
      simp only [hc]
    | some codecs =>
      by_cases hvc : codecs.vc.codec_id ≠ CODEC_ID_MPEG2VIDEO
      · left
        rw [probe_mpeg2.eq_def, if_neg hext]
        simp only [hc, if_pos hvc]
      · have heq : probe_mpeg2 ctx =
            match stream_get_container ctx with
            | CT_MPEG_ELEMENTARY_STREAM => probe_mpeg_es ctx codecs
            | CT_MPEG_PROGRAM_STREAM => probe_mpeg_ps ctx codecs
            | CT_MPEG_TRANSPORT_STREAM => probe_mpeg_ts ctx codecs CT_MPEG_TRANSPORT_STREAM
            | CT_MPEG_TRANSPORT_STREAM_DLNA =>
              probe_mpeg_ts ctx codecs CT_MPEG_TRANSPORT_STREAM_DLNA
            | CT_MPEG_TRANSPORT_STREAM_DLNA_NO_TS =>
              probe_mpeg_ts ctx codecs CT_MPEG_TRANSPORT_STREAM_DLNA_NO_TS
            | _ => none := by
          rw [probe_mpeg2.eq_def, if_neg hext]
          simp only [hc, if_neg hvc]
        rw [heq]
        cases stream_get_container ctx
        · exact Or.inl rfl
        · exact Or.inr ⟨codecs, rfl, Or.inl rfl⟩
        · exact Or.inr ⟨codecs, rfl, Or.inr (Or.inl rfl)⟩
        · exact Or.inr ⟨codecs, rfl, Or.inr (Or.inr ⟨_, rfl⟩)⟩
        · exact Or.inr ⟨codecs, rfl, Or.inr (Or.inr ⟨_, rfl⟩)⟩
        · exact Or.inr ⟨codecs, rfl, Or.inr (Or.inr ⟨_, rfl⟩)⟩
        · exact Or.inl rfl

/-- The results of `probe_mpeg4`: no record, or one of six records of the AAC
family, where the two records `aac_adts` and `aac_iso` need the enumerator
`AUDIO_PROFILE_AAC` to be 0. -/
theorem probe_mpeg4_cases (v : Int) (ctx : AVFormatContext) :
    probe_mpeg4 v ctx = none ∨
    probe_mpeg4 v ctx = set_profile aac_mult5_adts ∨
    probe_mpeg4 v ctx = set_profile aac_mult5_iso ∨
    probe_mpeg4 v ctx = set_profile aac_adts_320 ∨
    probe_mpeg4 v ctx = set_profile aac_iso_320 ∨
    (v = 0 ∧ (probe_mpeg4 v ctx = set_profile aac_adts ∨
      probe_mpeg4 v ctx = set_profile aac_iso)) := by
  cases hp : probe_mpeg4 v ctx with
  | none => exact Or.inl rfl
  | some r =>
    obtain ⟨c, ha, hc, _⟩ := probe_mpeg4_some_inv v ctx r hp
    rw [← hp, probe_mpeg4_of_aac v ctx c ha hc]
    by_cases hv : v = 0
    · subst hv
      split_ifs <;> simp
    · split_ifs <;> simp

/-- The ids of the records of the two families, as `set_profile` hands them to
the caller, are pairwise distinct. -/
theorem returned_ids_nodup :
    ((audio_aac_profiles.filterMap set_profile ++
      av_mpeg2_profiles.filterMap set_profile).map
        dlna_profile_t.id).Nodup := by
  decide

/-- A record returned by `probe_mpeg4` or by `probe_mpeg2` is a record of the
catalog, handed to the caller by `set_profile`. -/
theorem returned_record_mem (v : Int) (ctx : AVFormatContext) (r : dlna_profile_t)
    (h : probe_mpeg4 v ctx = some r ∨ probe_mpeg2 ctx = some r) :
    r ∈ audio_aac_profiles.filterMap set_profile ++
      av_mpeg2_profiles.filterMap set_profile := by
  have close : ∀ p : dlna_profile_t, some r = set_profile p → r = p := by
    intro p hp
    simp only [set_profile, Option.some.injEq] at hp
    exact hp
  rcases h with h | h
  · rcases probe_mpeg4_cases v ctx with hp | hp | hp | hp | hp | ⟨_, hp | hp⟩ <;>
      rw [hp] at h
    · exact absurd h (by simp)
    all_goals
      rw [close _ h.symm]
      decide
  · rcases probe_mpeg2_cases ctx with hp | ⟨codecs, _, hp | hp | ⟨st, hp⟩⟩ <;> rw [hp] at h
    · exact absurd h (by simp)
    · rcases probe_mpeg_ps_es_cases ctx codecs mpeg_es_pal mpeg_es_pal_xac3 mpeg_es_ntsc
          mpeg_es_ntsc_xac3 with hq | ⟨_, hq | hq⟩ | ⟨_, _, hq | hq⟩ <;>
        rw [probe_mpeg_es, hq] at h
      · exact absurd h (by simp)
      all_goals
        rw [close _ h.symm]
        decide
    · rcases probe_mpeg_ps_es_cases ctx codecs mpeg_ps_pal mpeg_ps_pal_xac3 mpeg_ps_ntsc
          mpeg_ps_ntsc_xac3 with hq | ⟨_, hq | hq⟩ | ⟨_, _, hq | hq⟩ <;>
        rw [probe_mpeg_ps, hq] at h
      · exact absurd h (by simp)
      all_goals
        rw [close _ h.symm]
        decide
    · rcases probe_mpeg_ts_cases ctx codecs st with
          hq | ⟨_, hq | hq⟩ | ⟨_, hq | hq⟩ | ⟨_, hq | hq⟩ <;> rw [hq] at h
      · exact absurd h (by simp)
      all_goals
        rw [close _ h.symm]
        decide

/-! ## The catalog: unique ids -/

/-- C31: the ids of the records that `audio_aac.c` and `av_mpeg2.c` define are
pairwise distinct, so two records of the catalog are the same record if and
only if their ids are equal, and two records returned by `probe_mpeg4` or
`probe_mpeg2` are the same record if and only if their ids are equal. -/
theorem profile_ids_unique :
    ((audio_aac_profiles ++ av_mpeg2_profiles).map dlna_profile_t.id).Nodup ∧
    (∀ p ∈ audio_aac_profiles ++ av_mpeg2_profiles,
      ∀ q ∈ audio_aac_profiles ++ av_mpeg2_profiles, (p = q ↔ p.id = q.id)) ∧
    (∀ (v : Int) (ctx1 ctx2 : AVFormatContext) (r1 r2 : dlna_profile_t),
      (probe_mpeg4 v ctx1 = some r1 ∨ probe_mpeg2 ctx1 = some r1) →
      (probe_mpeg4 v ctx2 = some r2 ∨ probe_mpeg2 ctx2 = some r2) →
      (r1 = r2 ↔ r1.id = r2.id)) := by
  have hnodup : ((audio_aac_profiles ++ av_mpeg2_profiles).map dlna_profile_t.id).Nodup := by
    decide
  refine ⟨hnodup, ?_, ?_⟩
  · intro p hp q hq
    constructor
    · intro h
      rw [h]
    · intro h
      exact List.inj_on_of_nodup_map hnodup hp hq h
  · intro v ctx1 ctx2 r1 r2 h1 h2
    constructor
    · intro h
      rw [h]
    · intro h
      exact List.inj_on_of_nodup_map returned_ids_nodup (returned_record_mem v ctx1 r1 h1)
        (returned_record_mem v ctx2 r2 h2) h

/-- Witness of C31: the records of the raw ADTS scenario and of the Europe
scenario have different ids and are different records. -/
theorem profile_ids_unique_witness :
    (aac_adts_320 =
        mpeg_ts_sd_eu_t ↔
      aac_adts_320.id =
        mpeg_ts_sd_eu_t.id) :=
  profile_ids_unique.2.2 1 raw_adts_320_descriptor
    (av_descriptor CT_MPEG_TRANSPORT_STREAM_DLNA 8000000 ac3_context
      (mpeg2_video_stream 720 576 25 1) "movie.ts")
    aac_adts_320
    mpeg_ts_sd_eu_t
    (Or.inl (by decide)) (Or.inr (by decide))

/-! ## Gate and branch of `probe_mpeg2` -/

/-- C32: on a descriptor whose file extension is accepted and whose codec pair
is available, `probe_mpeg2` returns no record when the video codec is not
MPEG-2, and no record when the container kind is none of the elementary
stream, the program stream and the three transport stream kinds; with MPEG-2
video its result is that of `probe_mpeg_es` for an elementary stream, of
`probe_mpeg_ps` for a program stream and of `probe_mpeg_ts`, called with the
container kind, for a transport stream. -/
theorem probe_mpeg2_gate_and_branch (ctx : AVFormatContext) (codecs : av_codecs_t)
    (hext : match_file_extension ctx.filename MPEG2_KNOWN_EXTENSIONS = true)
    (hc : av_profile_get_codecs ctx = some codecs) :
    (codecs.vc.codec_id ≠ CODEC_ID_MPEG2VIDEO → probe_mpeg2 ctx = none) ∧
    (stream_get_container ctx ≠ CT_MPEG_ELEMENTARY_STREAM →
      stream_get_container ctx ≠ CT_MPEG_PROGRAM_STREAM →
      stream_get_container ctx ≠ CT_MPEG_TRANSPORT_STREAM →
      stream_get_container ctx ≠ CT_MPEG_TRANSPORT_STREAM_DLNA →
      stream_get_container ctx ≠ CT_MPEG_TRANSPORT_STREAM_DLNA_NO_TS →
      probe_mpeg2 ctx = none) ∧
    (codecs.vc.codec_id = CODEC_ID_MPEG2VIDEO →
      (stream_get_container ctx = CT_MPEG_ELEMENTARY_STREAM →
        probe_mpeg2 ctx = probe_mpeg_es ctx codecs) ∧
      (stream_get_container ctx = CT_MPEG_PROGRAM_STREAM →
        probe_mpeg2 ctx = probe_mpeg_ps ctx codecs) ∧
      (stream_get_container ctx = CT_MPEG_TRANSPORT_STREAM ∨
          stream_get_container ctx = CT_MPEG_TRANSPORT_STREAM_DLNA ∨
          stream_get_container ctx = CT_MPEG_TRANSPORT_STREAM_DLNA_NO_TS →
        probe_mpeg2 ctx = probe_mpeg_ts ctx codecs (stream_get_container ctx))) := by
  have hne : ¬ ¬ match_file_extension ctx.filename MPEG2_KNOWN_EXTENSIONS = true :=
    not_not.mpr hext
  refine ⟨?_, ?_, ?_⟩
  · intro hvc
    rw [probe_mpeg2.eq_def, if_neg hne]
    simp only [hc, if_pos hvc]
  · intro h1 h2 h3 h4 h5
    rw [probe_mpeg2.eq_def, if_neg hne]
    simp only [hc]
    split_ifs
    · rfl
    · cases hk : stream_get_container ctx <;> simp_all
  · intro hvc
    have hvc2 : ¬ codecs.vc.codec_id ≠ CODEC_ID_MPEG2VIDEO := not_not.mpr hvc
    refine ⟨?_, ?_, ?_⟩
    · intro hk
      rw [probe_mpeg2.eq_def, if_neg hne]
      simp only [hc, if_neg hvc2, hk]
    · intro hk
      rw [probe_mpeg2.eq_def, if_neg hne]
      simp only [hc, if_neg hvc2, hk]
    · intro hk
      rw [probe_mpeg2.eq_def, if_neg hne]
      rcases hk with hk | hk | hk <;> simp only [hc, if_neg hvc2, hk]

/-- Witness of C32: a program stream named movie.mpg with MPEG-2 video of
720x480 at 30000/1001 and AC-3 audio. -/
theorem probe_mpeg2_gate_and_branch_witness :
    probe_mpeg2 (av_descriptor CT_MPEG_PROGRAM_STREAM 8000000 ac3_context
        (mpeg2_video_stream 720 480 30000 1001) "movie.mpg") =
      probe_mpeg_ps (av_descriptor CT_MPEG_PROGRAM_STREAM 8000000 ac3_context
        (mpeg2_video_stream 720 480 30000 1001) "movie.mpg")
        (codec_pair ac3_context (mpeg2_video_stream 720 480 30000 1001)) :=
  ((probe_mpeg2_gate_and_branch
      (av_descriptor CT_MPEG_PROGRAM_STREAM 8000000 ac3_context
        (mpeg2_video_stream 720 480 30000 1001) "movie.mpg")
      (codec_pair ac3_context (mpeg2_video_stream 720 480 30000 1001))
      (by decide) rfl).2.2 rfl).2.1 rfl

/-! ## Records of `probe_mpeg_ts` by container kind -/

/-- The result of a North America loop of `probe_mpeg_ts`: the loop ends without
a return and the function goes on with `after`, or the first matching row
returns the record for the container kind and the flag `xac3`. -/
theorem probe_mpeg_ts_na_scan_cases (rows : List mpeg_ts_stream_t) (codecs : av_codecs_t)
    (st : dlna_container_type_t) (xac3 : Int)
    (na_iso na_t na xac3_iso xac3_t xac3_na : dlna_profile_t)
    (after : Option dlna_profile_t) :
    probe_mpeg_ts_na_scan rows codecs st xac3 na_iso na_t na xac3_iso xac3_t xac3_na after =
        after ∨
      probe_mpeg_ts_na_scan rows codecs st xac3 na_iso na_t na xac3_iso xac3_t xac3_na
          after =
        match st with
        | CT_MPEG_TRANSPORT_STREAM =>
          if xac3 ≠ 0 then set_profile xac3_iso
          else set_profile na_iso
        | CT_MPEG_TRANSPORT_STREAM_DLNA =>
          if xac3 ≠ 0 then set_profile xac3_t
          else set_profile na_t
        | CT_MPEG_TRANSPORT_STREAM_DLNA_NO_TS =>
          if xac3 ≠ 0 then set_profile xac3_na
          else set_profile na
        | _ => none := by
  induction rows with
  | nil => exact Or.inl rfl
  | cons row rest ih =>
    by_cases hrow : row.width = codecs.vc.width ∧ row.height = codecs.vc.height ∧
        row.fps_num = codecs.vs.r_frame_rate.num ∧
        row.fps_den = codecs.vs.r_frame_rate.num
    · right
      rw [probe_mpeg_ts_na_scan.eq_def]
      simp only [if_pos hrow]
    · rw [probe_mpeg_ts_na_scan.eq_def]
      simp only [if_neg hrow]
      exact ih

/-- C33: whenever `probe_mpeg_ts` returns a record, the container kind alone
fixes the suffix of its id: `CT_MPEG_TRANSPORT_STREAM` gives an `_ISO` record,
`CT_MPEG_TRANSPORT_STREAM_DLNA` a `_T` record and
`CT_MPEG_TRANSPORT_STREAM_DLNA_NO_TS` a record without suffix; any other
container kind gives no record. The two North America loops key their records
in the same way, whatever rows their table holds. -/
theorem probe_mpeg_ts_suffix_by_container (ctx : AVFormatContext) (codecs : av_codecs_t)
    (st : dlna_container_type_t) (r : dlna_profile_t)
    (h : probe_mpeg_ts ctx codecs st = some r) :
    ((st = CT_MPEG_TRANSPORT_STREAM ∧
        r.id ∈ ["MPEG_TS_MP_LL_AAC_ISO", "MPEG_TS_SD_EU_ISO"]) ∨
      (st = CT_MPEG_TRANSPORT_STREAM_DLNA ∧
        r.id ∈ ["MPEG_TS_MP_LL_AAC_T", "MPEG_TS_SD_EU_T"]) ∨
      (st = CT_MPEG_TRANSPORT_STREAM_DLNA_NO_TS ∧
        r.id ∈ ["MPEG_TS_MP_LL_AAC", "MPEG_TS_SD_EU"])) ∧
    (∀ (rows : List mpeg_ts_stream_t) (xac3 : Int) (q : dlna_profile_t),
      probe_mpeg_ts_na_scan rows codecs st xac3
          mpeg_ts_sd_na_iso mpeg_ts_sd_na_t mpeg_ts_sd_na
          mpeg_ts_sd_na_xac3_iso mpeg_ts_sd_na_xac3_t mpeg_ts_sd_na_xac3 none = some q →
        (st = CT_MPEG_TRANSPORT_STREAM ∧
          q.id ∈ ["MPEG_TS_SD_NA_ISO", "MPEG_TS_SD_NA_XAC3_ISO"]) ∨
        (st = CT_MPEG_TRANSPORT_STREAM_DLNA ∧
          q.id ∈ ["MPEG_TS_SD_NA_T", "MPEG_TS_SD_NA_XAC3_T"]) ∨
        (st = CT_MPEG_TRANSPORT_STREAM_DLNA_NO_TS ∧
          q.id ∈ ["MPEG_TS_SD_NA", "MPEG_TS_SD_NA_XAC3"])) ∧
    (∀ (rows : List mpeg_ts_stream_t) (xac3 : Int) (q : dlna_profile_t),
      probe_mpeg_ts_na_scan rows codecs st xac3
          mpeg_ts_hd_na_iso mpeg_ts_hd_na_t mpeg_ts_hd_na
          mpeg_ts_hd_na_xac3_iso mpeg_ts_hd_na_xac3_t mpeg_ts_hd_na_xac3 none = some q →
        (st = CT_MPEG_TRANSPORT_STREAM ∧
          q.id ∈ ["MPEG_TS_HD_NA_ISO", "MPEG_TS_HD_NA_XAC3_ISO"]) ∨
        (st = CT_MPEG_TRANSPORT_STREAM_DLNA ∧
          q.id ∈ ["MPEG_TS_HD_NA_T", "MPEG_TS_HD_NA_XAC3_T"]) ∨
        (st = CT_MPEG_TRANSPORT_STREAM_DLNA_NO_TS ∧
          q.id ∈ ["MPEG_TS_HD_NA", "MPEG_TS_HD_NA_XAC3"])) := by
  refine ⟨?_, ?_, ?_⟩
  · rcases probe_mpeg_ts_cases ctx codecs st with
        hq | ⟨hst, hq | hq⟩ | ⟨hst, hq | hq⟩ | ⟨hst, hq | hq⟩ <;> rw [hq] at h
    · exact absurd h (by simp)
    all_goals
      simp only [set_profile, Option.some.injEq] at h
      subst h
      subst hst
      decide
  · intro rows xac3 q hq
    rcases probe_mpeg_ts_na_scan_cases rows codecs st xac3
        mpeg_ts_sd_na_iso mpeg_ts_sd_na_t mpeg_ts_sd_na
        mpeg_ts_sd_na_xac3_iso mpeg_ts_sd_na_xac3_t mpeg_ts_sd_na_xac3 none with hs | hs
    · rw [hs] at hq
      exact absurd hq (by simp)
    · rw [hs] at hq
      cases st <;> simp only [reduceCtorEq] at hq
      all_goals
        split_ifs at hq
        all_goals
          simp only [set_profile, Option.some.injEq] at hq
          subst hq
          decide
  · intro rows xac3 q hq
    rcases probe_mpeg_ts_na_scan_cases rows codecs st xac3
        mpeg_ts_hd_na_iso mpeg_ts_hd_na_t mpeg_ts_hd_na
        mpeg_ts_hd_na_xac3_iso mpeg_ts_hd_na_xac3_t mpeg_ts_hd_na_xac3 none with hs | hs
    · rw [hs] at hq
      exact absurd hq (by simp)
    · rw [hs] at hq
      cases st <;> simp only [reduceCtorEq] at hq
      all_goals
        split_ifs at hq
        all_goals
          simp only [set_profile, Option.some.injEq] at hq
          subst hq
          decide

/-- Witness of C33: AC-3 audio next to video of 720x576 at 25/1 in a transport
stream with valid timestamp gets the `_T` record of the EU-SD family. -/
theorem probe_mpeg_ts_suffix_by_container_witness :
    (CT_MPEG_TRANSPORT_STREAM_DLNA = CT_MPEG_TRANSPORT_STREAM ∧
        mpeg_ts_sd_eu_t.id ∈
          ["MPEG_TS_MP_LL_AAC_ISO", "MPEG_TS_SD_EU_ISO"]) ∨
      (CT_MPEG_TRANSPORT_STREAM_DLNA = CT_MPEG_TRANSPORT_STREAM_DLNA ∧
        mpeg_ts_sd_eu_t.id ∈
          ["MPEG_TS_MP_LL_AAC_T", "MPEG_TS_SD_EU_T"]) ∨
      (CT_MPEG_TRANSPORT_STREAM_DLNA = CT_MPEG_TRANSPORT_STREAM_DLNA_NO_TS ∧
        mpeg_ts_sd_eu_t.id ∈
          ["MPEG_TS_MP_LL_AAC", "MPEG_TS_SD_EU"]) :=
  (probe_mpeg_ts_suffix_by_container
    (av_descriptor CT_MPEG_TRANSPORT_STREAM_DLNA 8000000 ac3_720x576_codecs.ac
      ac3_720x576_codecs.vs "movie.ts")
    ac3_720x576_codecs CT_MPEG_TRANSPORT_STREAM_DLNA
    mpeg_ts_sd_eu_t (by decide)).1

/-! ## Extended AC-3 before standard AC-3 -/

/-- A stream that `is_mpeg_ps_es_audio_stream_ac3` accepts is accepted by
`is_mpeg_ps_es_audio_stream_extended_ac3`. -/
theorem extended_ac3_of_ac3 (ctx : AVFormatContext) (codecs : av_codecs_t)
    (h : is_mpeg_ps_es_audio_stream_ac3 ctx codecs ≠ 0) :
    is_mpeg_ps_es_audio_stream_extended_ac3 ctx codecs = 1 := by
  unfold is_mpeg_ps_es_audio_stream_ac3 at h
  unfold is_mpeg_ps_es_audio_stream_extended_ac3
  rw [common_ac3_check_eq] at *
  split_ifs at h ⊢ <;> simp_all
  all_goals omega

/-- The LPCM validator and the MPEG audio validator reject AC-3 audio. -/
theorem lpcm_mp2_reject_ac3 (ctx : AVFormatContext) (codecs : av_codecs_t)
    (h : is_mpeg_ps_es_audio_stream_lpcm ctx codecs ≠ 0 ∨
      is_mpeg_ps_es_audio_stream_mp2 ctx codecs ≠ 0) :
    codecs.ac.codec_id ≠ CODEC_ID_AC3 := by
  intro hac3
  rcases h with h | h
  · simp [is_mpeg_ps_es_audio_stream_lpcm, hac3] at h
  · simp [is_mpeg_ps_es_audio_stream_mp2, hac3] at h

/-- C34: every audio stream accepted by `is_mpeg_ps_es_audio_stream_ac3` is
accepted by `is_mpeg_ps_es_audio_stream_extended_ac3`. So on a stream that the
standard validator accepts, `probe_mpeg_ps_es` returns no record or an `_XAC3`
record, and when `probe_mpeg_ps` or `probe_mpeg_es` returns one of the plain
records MPEG_PS_NTSC, MPEG_PS_PAL, MPEG_ES_NTSC, MPEG_ES_PAL, the audio is
accepted by the LPCM or the MPEG audio validator and its codec is not AC-3.
On a stream that the standard validator accepts, the result of
`probe_mpeg_ps_es` is the `_XAC3` record of the region whenever the frame rate
is that of a region and the width and height are a row of its table, and no
record otherwise; so `probe_mpeg_ps` returns `mpeg_ps_ntsc_xac3` or
`mpeg_ps_pal_xac3` and `probe_mpeg_es` returns `mpeg_es_ntsc_xac3` or
`mpeg_es_pal_xac3` there. -/
theorem extended_ac3_superset (ctx : AVFormatContext) (codecs : av_codecs_t) :
    (is_mpeg_ps_es_audio_stream_ac3 ctx codecs = 1 →
      is_mpeg_ps_es_audio_stream_extended_ac3 ctx codecs = 1) ∧
    (∀ pal pal_xac3 ntsc ntsc_xac3 : dlna_profile_t,
      is_mpeg_ps_es_audio_stream_ac3 ctx codecs = 1 →
      probe_mpeg_ps_es ctx codecs pal pal_xac3 ntsc ntsc_xac3 = none ∨
      probe_mpeg_ps_es ctx codecs pal pal_xac3 ntsc ntsc_xac3 =
        set_profile ntsc_xac3 ∨
      probe_mpeg_ps_es ctx codecs pal pal_xac3 ntsc ntsc_xac3 =
        set_profile pal_xac3) ∧
    (∀ r : dlna_profile_t,
      (probe_mpeg_ps ctx codecs = some r ∨ probe_mpeg_es ctx codecs = some r) →
      r.id ∈ ["MPEG_PS_NTSC", "MPEG_PS_PAL", "MPEG_ES_NTSC", "MPEG_ES_PAL"] →
      (is_mpeg_ps_es_audio_stream_lpcm ctx codecs ≠ 0 ∨
        is_mpeg_ps_es_audio_stream_mp2 ctx codecs ≠ 0) ∧
      codecs.ac.codec_id ≠ CODEC_ID_AC3) ∧
    (∀ pal pal_xac3 ntsc ntsc_xac3 : dlna_profile_t,
      is_mpeg_ps_es_audio_stream_ac3 ctx codecs = 1 →
      probe_mpeg_ps_es ctx codecs pal pal_xac3 ntsc ntsc_xac3 =
        if codecs.vs.r_frame_rate.num = 30000 ∧ codecs.vs.r_frame_rate.den = 1001 then
          if ∃ row ∈ mpeg_ps_es_valid_streams_ntsc,
              row.width = codecs.vc.width ∧ row.height = codecs.vc.height then
            set_profile ntsc_xac3
          else none
        else if codecs.vs.r_frame_rate.num = 25 ∧ codecs.vs.r_frame_rate.den = 1 then
          if ∃ row ∈ mpeg_ps_es_valid_streams_pal,
              row.width = codecs.vc.width ∧ row.height = codecs.vc.height then
            set_profile pal_xac3
          else none
        else none) ∧
    (is_mpeg_ps_es_audio_stream_ac3 ctx codecs = 1 →
      codecs.vs.r_frame_rate.num = 30000 ∧ codecs.vs.r_frame_rate.den = 1001 →
      (∃ row ∈ mpeg_ps_es_valid_streams_ntsc,
        row.width = codecs.vc.width ∧ row.height = codecs.vc.height) →
      probe_mpeg_ps ctx codecs = some mpeg_ps_ntsc_xac3 ∧
      probe_mpeg_es ctx codecs = some mpeg_es_ntsc_xac3) ∧
    (is_mpeg_ps_es_audio_stream_ac3 ctx codecs = 1 →
      codecs.vs.r_frame_rate.num = 25 ∧ codecs.vs.r_frame_rate.den = 1 →
      (∃ row ∈ mpeg_ps_es_valid_streams_pal,
        row.width = codecs.vc.width ∧ row.height = codecs.vc.height) →
      probe_mpeg_ps ctx codecs = some mpeg_ps_pal_xac3 ∧
      probe_mpeg_es ctx codecs = some mpeg_es_pal_xac3) := by
  have hone : ∀ x : Int, x = 1 → x ≠ 0 := by
    intro x hx
    omega
  have sel : ∀ pal pal_xac3 ntsc ntsc_xac3 : dlna_profile_t,
      is_mpeg_ps_es_audio_stream_ac3 ctx codecs = 1 →
      probe_mpeg_ps_es ctx codecs pal pal_xac3 ntsc ntsc_xac3 =
        if codecs.vs.r_frame_rate.num = 30000 ∧ codecs.vs.r_frame_rate.den = 1001 then
          if ∃ row ∈ mpeg_ps_es_valid_streams_ntsc,
              row.width = codecs.vc.width ∧ row.height = codecs.vc.height then
            set_profile ntsc_xac3
          else none
        else if codecs.vs.r_frame_rate.num = 25 ∧ codecs.vs.r_frame_rate.den = 1 then
          if ∃ row ∈ mpeg_ps_es_valid_streams_pal,
              row.width = codecs.vc.width ∧ row.height = codecs.vc.height then
            set_profile pal_xac3
          else none
        else none := by
    intro pal pal_xac3 ntsc ntsc_xac3 h
    have hext : is_mpeg_ps_es_audio_stream_extended_ac3 ctx codecs ≠ 0 := by
      have := extended_ac3_of_ac3 ctx codecs (hone _ h)
      omega
    unfold probe_mpeg_ps_es
    rw [probe_mpeg_ps_es_scan_eq, probe_mpeg_ps_es_scan_eq]
    simp only [if_pos hext]
  have plain : ∀ (pal pal_xac3 ntsc ntsc_xac3 r : dlna_profile_t),
      probe_mpeg_ps_es ctx codecs pal pal_xac3 ntsc ntsc_xac3 = some r →
      r.id ≠ ntsc_xac3.id → r.id ≠ pal_xac3.id →
      (is_mpeg_ps_es_audio_stream_lpcm ctx codecs ≠ 0 ∨
        is_mpeg_ps_es_audio_stream_mp2 ctx codecs ≠ 0) ∧
      codecs.ac.codec_id ≠ CODEC_ID_AC3 := by
    intro pal pal_xac3 ntsc ntsc_xac3 r hr hn hp
    have key : is_mpeg_ps_es_audio_stream_extended_ac3 ctx codecs = 0 ∧
        (is_mpeg_ps_es_audio_stream_lpcm ctx codecs ≠ 0 ∨
          is_mpeg_ps_es_audio_stream_ac3 ctx codecs ≠ 0 ∨
          is_mpeg_ps_es_audio_stream_mp2 ctx codecs ≠ 0) := by
      rcases probe_mpeg_ps_es_cases ctx codecs pal pal_xac3 ntsc ntsc_xac3 with
        hq | ⟨_, hq | hq⟩ | ⟨h0, haud, _⟩
      · rw [hq] at hr
        exact absurd hr (by simp)
      · rw [hq] at hr
        simp only [set_profile, Option.some.injEq] at hr
        subst hr
        exact absurd rfl hn
      · rw [hq] at hr
        simp only [set_profile, Option.some.injEq] at hr
        subst hr
        exact absurd rfl hp
      · exact ⟨h0, haud⟩
    obtain ⟨h0, haud⟩ := key
    have hl : is_mpeg_ps_es_audio_stream_lpcm ctx codecs ≠ 0 ∨
        is_mpeg_ps_es_audio_stream_mp2 ctx codecs ≠ 0 := by
      rcases haud with h | h | h
      · exact Or.inl h
      · have := extended_ac3_of_ac3 ctx codecs h
        omega
      · exact Or.inr h
    exact ⟨hl, lpcm_mp2_reject_ac3 ctx codecs hl⟩
  refine ⟨fun h => extended_ac3_of_ac3 ctx codecs (hone _ h), ?_, ?_, sel, ?_, ?_⟩
  · intro pal pal_xac3 ntsc ntsc_xac3 h
    have hext := extended_ac3_of_ac3 ctx codecs (hone _ h)
    rcases probe_mpeg_ps_es_cases ctx codecs pal pal_xac3 ntsc ntsc_xac3 with
      hq | ⟨_, hq | hq⟩ | ⟨h0, _, _⟩
    · exact Or.inl hq
    · exact Or.inr (Or.inl hq)
    · exact Or.inr (Or.inr hq)
    · omega
  · intro r hr hid
    rcases hr with hr | hr
    · apply plain _ _ _ _ r hr
      · intro hx
        rw [hx] at hid
        revert hid
        decide
      · intro hx
        rw [hx] at hid
        revert hid
        decide
    · apply plain _ _ _ _ r hr
      · intro hx
        rw [hx] at hid
        revert hid
        decide
      · intro hx
        rw [hx] at hid
        revert hid
        decide

  · intro h hrate hrow
    constructor
    · rw [probe_mpeg_ps, sel _ _ _ _ h, if_pos hrate, if_pos hrow]
      rfl
    · rw [probe_mpeg_es, sel _ _ _ _ h, if_pos hrate, if_pos hrow]
      rfl
  · intro h hrate hrow
    have hntsc : ¬ (codecs.vs.r_frame_rate.num = 30000 ∧
        codecs.vs.r_frame_rate.den = 1001) := by
      omega
    constructor
    · rw [probe_mpeg_ps, sel _ _ _ _ h, if_neg hntsc, if_pos hrate, if_pos hrow]
      rfl
    · rw [probe_mpeg_es, sel _ _ _ _ h, if_neg hntsc, if_pos hrate, if_pos hrow]
      rfl

/-- Witness of C34: AC-3 audio at 384000 bps next to video of 720x480 at
30000/1001 is accepted by the standard validator, so by the extended one, and
gets the `_XAC3` record of the NTSC region from `probe_mpeg_ps` and from
`probe_mpeg_es`. -/
theorem extended_ac3_superset_witness :
    is_mpeg_ps_es_audio_stream_extended_ac3
      (av_descriptor CT_MPEG_PROGRAM_STREAM 8000000 ac3_context
        (mpeg2_video_stream 720 480 30000 1001) "movie.mpg")
      (codec_pair ac3_context (mpeg2_video_stream 720 480 30000 1001)) = 1 ∧
    probe_mpeg_ps
      (av_descriptor CT_MPEG_PROGRAM_STREAM 8000000 ac3_context
        (mpeg2_video_stream 720 480 30000 1001) "movie.mpg")
      (codec_pair ac3_context (mpeg2_video_stream 720 480 30000 1001)) =
        some mpeg_ps_ntsc_xac3 ∧
    probe_mpeg_es
      (av_descriptor CT_MPEG_PROGRAM_STREAM 8000000 ac3_context
        (mpeg2_video_stream 720 480 30000 1001) "movie.mpg")
      (codec_pair ac3_context (mpeg2_video_stream 720 480 30000 1001)) =
        some mpeg_es_ntsc_xac3 :=
  ⟨(extended_ac3_superset
      (av_descriptor CT_MPEG_PROGRAM_STREAM 8000000 ac3_context
        (mpeg2_video_stream 720 480 30000 1001) "movie.mpg")
      (codec_pair ac3_context (mpeg2_video_stream 720 480 30000 1001))).1 (by decide),
    (extended_ac3_superset
      (av_descriptor CT_MPEG_PROGRAM_STREAM 8000000 ac3_context
        (mpeg2_video_stream 720 480 30000 1001) "movie.mpg")
      (codec_pair ac3_context (mpeg2_video_stream 720 480 30000 1001))).2.2.2.2.1
      (by decide) (by decide) (by decide)⟩

/-! ## The records `probe_mpeg4` returns -/

/-- Only a 5-channel stream is classified `AUDIO_PROFILE_AAC_MULT5`. -/
theorem audio_profile_guess_aac_mult5_channels (c : AVCodecContext)
    (h : audio_profile_guess_aac (some c) = AUDIO_PROFILE_AAC_MULT5) : c.channels = 5 := by
  simp only [audio_profile_guess_aac] at h
  split_ifs at h with h1 h2 h3 h4 h5 h6 h7
  exact h5

/-- C35: when the enumerator `AUDIO_PROFILE_AAC` is not 0, the result of
`probe_mpeg4` is no record or one of the four records `aac_mult5_adts`,
`aac_mult5_iso`, `aac_adts_320`, `aac_iso_320`; the ids AAC_ADTS and AAC_ISO are
never returned, and every accepted stream that does not have 5 channels gets
the id AAC_ADTS_320 or AAC_ISO_320. -/
theorem probe_mpeg4_four_records (v : Int) (hv : v ≠ 0) (ctx : AVFormatContext) :
    (probe_mpeg4 v ctx = none ∨
      probe_mpeg4 v ctx = set_profile aac_mult5_adts ∨
      probe_mpeg4 v ctx = set_profile aac_mult5_iso ∨
      probe_mpeg4 v ctx = set_profile aac_adts_320 ∨
      probe_mpeg4 v ctx = set_profile aac_iso_320) ∧
    (∀ r, probe_mpeg4 v ctx = some r →
      r.id ∈ ["AAC_MULT5_ADTS", "AAC_MULT5_ISO", "AAC_ADTS_320", "AAC_ISO_320"] ∧
      r.id ≠ "AAC_ADTS" ∧ r.id ≠ "AAC_ISO") ∧
    (∀ c r, ctx.audio = some c → c.channels ≠ 5 → probe_mpeg4 v ctx = some r →
      r.id ∈ ["AAC_ADTS_320", "AAC_ISO_320"]) := by
  have hfour : probe_mpeg4 v ctx = none ∨
      probe_mpeg4 v ctx = set_profile aac_mult5_adts ∨
      probe_mpeg4 v ctx = set_profile aac_mult5_iso ∨
      probe_mpeg4 v ctx = set_profile aac_adts_320 ∨
      probe_mpeg4 v ctx = set_profile aac_iso_320 := by
    rcases probe_mpeg4_cases v ctx with h | h | h | h | h | ⟨h0, _⟩
    · exact Or.inl h
    · exact Or.inr (Or.inl h)
    · exact Or.inr (Or.inr (Or.inl h))
    · exact Or.inr (Or.inr (Or.inr (Or.inl h)))
    · exact Or.inr (Or.inr (Or.inr (Or.inr h)))
    · exact absurd h0 hv
  refine ⟨hfour, ?_, ?_⟩
  · intro r hr
    rcases hfour with h | h | h | h | h <;> rw [h] at hr
    · exact absurd hr (by simp)
    all_goals
      simp only [set_profile, Option.some.injEq] at hr
      subst hr
      decide
  · intro c r ha hch hr
    obtain ⟨c2, ha2, hc, hg⟩ := probe_mpeg4_some_inv v ctx r hr
    have hcc : c2 = c := by
      rw [ha] at ha2
      exact (Option.some.inj ha2).symm
    subst hcc
    have h5 : audio_profile_guess_aac (some c2) ≠ AUDIO_PROFILE_AAC_MULT5 :=
      fun h => hch (audio_profile_guess_aac_mult5_channels c2 h)
    rw [probe_mpeg4_of_aac v ctx c2 ha hc, if_neg hg, if_neg h5, if_pos hv] at hr
    split_ifs at hr
    all_goals
      simp only [set_profile, Option.some.injEq] at hr
      subst hr
      decide

/-- Witness of C35: a stereo stream at 400000 bps in a program stream gets the
record of id AAC_ISO_320. -/
theorem probe_mpeg4_four_records_witness :
    aac_iso_320.id ∈
      ["AAC_ADTS_320", "AAC_ISO_320"] :=
  (probe_mpeg4_four_records 1 (by decide)
    { container := CT_MPEG_PROGRAM_STREAM, audio := some stereo_aac_400k_context }).2.2
    stereo_aac_400k_context aac_iso_320
    rfl (by decide) (by decide)

/-! ## No North America record -/

/-- C36: for every descriptor, codec pair and container kind, `probe_mpeg_ts`
returns no record or one of the six records of the AAC branch and of the
Europe branch, and none of the twelve North America records: the two loops
compare `fps_num` and `fps_den` of a row both with `r_frame_rate.num`, and no
row of the NA-SD or NA-HD table has `fps_num` equal to `fps_den`. -/
theorem probe_mpeg_ts_no_north_america_record (ctx : AVFormatContext)
    (codecs : av_codecs_t) (st : dlna_container_type_t) :
    (∀ row ∈ mpeg_ts_valid_streams_na_sd ++ mpeg_ts_valid_streams_na_hd,
      row.fps_num ≠ row.fps_den) ∧
    (∀ (xac3 : Int) (after : Option dlna_profile_t),
      probe_mpeg_ts_na_scan mpeg_ts_valid_streams_na_sd codecs st xac3
          mpeg_ts_sd_na_iso mpeg_ts_sd_na_t mpeg_ts_sd_na
          mpeg_ts_sd_na_xac3_iso mpeg_ts_sd_na_xac3_t mpeg_ts_sd_na_xac3 after = after ∧
      probe_mpeg_ts_na_scan mpeg_ts_valid_streams_na_hd codecs st xac3
          mpeg_ts_hd_na_iso mpeg_ts_hd_na_t mpeg_ts_hd_na
          mpeg_ts_hd_na_xac3_iso mpeg_ts_hd_na_xac3_t mpeg_ts_hd_na_xac3 after = after) ∧
    (probe_mpeg_ts ctx codecs st = none ∨
      probe_mpeg_ts ctx codecs st = set_profile mpeg_ts_mp_ll_aac ∨
      probe_mpeg_ts ctx codecs st = set_profile mpeg_ts_mp_ll_aac_t ∨
      probe_mpeg_ts ctx codecs st = set_profile mpeg_ts_mp_ll_aac_iso ∨
      probe_mpeg_ts ctx codecs st = set_profile mpeg_ts_sd_eu ∨
      probe_mpeg_ts ctx codecs st = set_profile mpeg_ts_sd_eu_t ∨
      probe_mpeg_ts ctx codecs st = set_profile mpeg_ts_sd_eu_iso) ∧
    (∀ r, probe_mpeg_ts ctx codecs st = some r →
      r.id ∉ ["MPEG_TS_SD_NA", "MPEG_TS_SD_NA_T", "MPEG_TS_SD_NA_ISO",
        "MPEG_TS_SD_NA_XAC3", "MPEG_TS_SD_NA_XAC3_T", "MPEG_TS_SD_NA_XAC3_ISO",
        "MPEG_TS_HD_NA", "MPEG_TS_HD_NA_T", "MPEG_TS_HD_NA_ISO",
        "MPEG_TS_HD_NA_XAC3", "MPEG_TS_HD_NA_XAC3_T", "MPEG_TS_HD_NA_XAC3_ISO"]) := by
  have hsix : probe_mpeg_ts ctx codecs st = none ∨
      probe_mpeg_ts ctx codecs st = set_profile mpeg_ts_mp_ll_aac ∨
      probe_mpeg_ts ctx codecs st = set_profile mpeg_ts_mp_ll_aac_t ∨
      probe_mpeg_ts ctx codecs st = set_profile mpeg_ts_mp_ll_aac_iso ∨
      probe_mpeg_ts ctx codecs st = set_profile mpeg_ts_sd_eu ∨
      probe_mpeg_ts ctx codecs st = set_profile mpeg_ts_sd_eu_t ∨
      probe_mpeg_ts ctx codecs st = set_profile mpeg_ts_sd_eu_iso := by
    rcases probe_mpeg_ts_cases ctx codecs st with
      h | ⟨_, h | h⟩ | ⟨_, h | h⟩ | ⟨_, h | h⟩
    · exact Or.inl h
    · exact Or.inr (Or.inr (Or.inr (Or.inl h)))
    · exact Or.inr (Or.inr (Or.inr (Or.inr (Or.inr (Or.inr h)))))
    · exact Or.inr (Or.inr (Or.inl h))
    · exact Or.inr (Or.inr (Or.inr (Or.inr (Or.inr (Or.inl h)))))
    · exact Or.inr (Or.inl h)
    · exact Or.inr (Or.inr (Or.inr (Or.inr (Or.inl h))))
  refine ⟨by decide, ?_, hsix, ?_⟩
  · intro xac3 after
    constructor
    · apply probe_mpeg_ts_na_scan_no_match
      intro row hrow hm
      exact na_tables_fps_num_ne_fps_den.1 row hrow (hm.2.2.1.trans hm.2.2.2.symm)
    · apply probe_mpeg_ts_na_scan_no_match
      intro row hrow hm
      exact na_tables_fps_num_ne_fps_den.2 row hrow (hm.2.2.1.trans hm.2.2.2.symm)
  · intro r hr
    rcases hsix with h | h | h | h | h | h | h <;> rw [h] at hr
    · exact absurd hr (by simp)
    all_goals
      simp only [set_profile, Option.some.injEq] at hr
      subst hr
      decide

/-- Witness of C36: the record of the Europe scenario is not a North America
record. -/
theorem probe_mpeg_ts_no_north_america_record_witness :
    mpeg_ts_sd_eu_t.id ∉
      ["MPEG_TS_SD_NA", "MPEG_TS_SD_NA_T", "MPEG_TS_SD_NA_ISO",
        "MPEG_TS_SD_NA_XAC3", "MPEG_TS_SD_NA_XAC3_T", "MPEG_TS_SD_NA_XAC3_ISO",
        "MPEG_TS_HD_NA", "MPEG_TS_HD_NA_T", "MPEG_TS_HD_NA_ISO",
        "MPEG_TS_HD_NA_XAC3", "MPEG_TS_HD_NA_XAC3_T", "MPEG_TS_HD_NA_XAC3_ISO"] :=
  (probe_mpeg_ts_no_north_america_record
    (av_descriptor CT_MPEG_TRANSPORT_STREAM_DLNA 8000000 ac3_720x576_codecs.ac
      ac3_720x576_codecs.vs "movie.ts")
    ac3_720x576_codecs CT_MPEG_TRANSPORT_STREAM_DLNA).2.2.2
    mpeg_ts_sd_eu_t (by decide)

/-! ## Program stream and elementary stream -/

/-- C37: `probe_mpeg_es` and `probe_mpeg_ps` make the same decision up to the
names of the records: one returns no record if and only if the other does, and
`probe_mpeg_es` returns `mpeg_es_pal`, `mpeg_es_pal_xac3`, `mpeg_es_ntsc`,
`mpeg_es_ntsc_xac3` exactly when `probe_mpeg_ps` returns `mpeg_ps_pal`,
`mpeg_ps_pal_xac3`, `mpeg_ps_ntsc`, `mpeg_ps_ntsc_xac3` respectively. -/
theorem probe_mpeg_es_ps_same_decision (ctx : AVFormatContext) (codecs : av_codecs_t) :
    (probe_mpeg_es ctx codecs = none ↔ probe_mpeg_ps ctx codecs = none) ∧
    (probe_mpeg_es ctx codecs = set_profile mpeg_es_pal ↔
      probe_mpeg_ps ctx codecs = set_profile mpeg_ps_pal) ∧
    (probe_mpeg_es ctx codecs = set_profile mpeg_es_pal_xac3 ↔
      probe_mpeg_ps ctx codecs = set_profile mpeg_ps_pal_xac3) ∧
    (probe_mpeg_es ctx codecs = set_profile mpeg_es_ntsc ↔
      probe_mpeg_ps ctx codecs = set_profile mpeg_ps_ntsc) ∧
    (probe_mpeg_es ctx codecs = set_profile mpeg_es_ntsc_xac3 ↔
      probe_mpeg_ps ctx codecs = set_profile mpeg_ps_ntsc_xac3) := by
  unfold probe_mpeg_es probe_mpeg_ps probe_mpeg_ps_es
  rw [probe_mpeg_ps_es_scan_eq, probe_mpeg_ps_es_scan_eq, probe_mpeg_ps_es_scan_eq,
    probe_mpeg_ps_es_scan_eq]
  split_ifs <;> decide

/-! ## MIME types -/

/-- C38: every record that `probe_mpeg_ts` returns for the container kind
`CT_MPEG_TRANSPORT_STREAM` has the MIME type video/mpeg, every record it
returns for `CT_MPEG_TRANSPORT_STREAM_DLNA` or
`CT_MPEG_TRANSPORT_STREAM_DLNA_NO_TS` has the MIME type video/vnd.dlna.mpeg-tts,
and every record that `probe_mpeg_ps` or `probe_mpeg_es` returns has the MIME
type video/mpeg. -/
theorem mpeg2_mime_by_container (ctx : AVFormatContext) (codecs : av_codecs_t) :
    (∀ r, probe_mpeg_ts ctx codecs CT_MPEG_TRANSPORT_STREAM = some r →
      r.mime = c_string.literal "video/mpeg") ∧
    (∀ st r, st = CT_MPEG_TRANSPORT_STREAM_DLNA ∨ st = CT_MPEG_TRANSPORT_STREAM_DLNA_NO_TS →
      probe_mpeg_ts ctx codecs st = some r →
      r.mime = c_string.literal "video/vnd.dlna.mpeg-tts") ∧
    (∀ r, probe_mpeg_ps ctx codecs = some r ∨ probe_mpeg_es ctx codecs = some r →
      r.mime = c_string.literal "video/mpeg") := by
  refine ⟨?_, ?_, ?_⟩
  · intro r hr
    rcases probe_mpeg_ts_cases ctx codecs CT_MPEG_TRANSPORT_STREAM with
        hq | ⟨_, hq | hq⟩ | ⟨hst, _⟩ | ⟨hst, _⟩
    · rw [hq] at hr
      exact absurd hr (by simp)
    · rw [hq] at hr
      simp only [set_profile, Option.some.injEq] at hr
      subst hr
      rfl
    · rw [hq] at hr
      simp only [set_profile, Option.some.injEq] at hr
      subst hr
      rfl
    · exact absurd hst (by decide)
    · exact absurd hst (by decide)
  · intro st r hst hr
    rcases probe_mpeg_ts_cases ctx codecs st with
        hq | ⟨hk, _⟩ | ⟨_, hq | hq⟩ | ⟨_, hq | hq⟩
    · rw [hq] at hr
      exact absurd hr (by simp)
    · rcases hst with h | h <;> rw [h] at hk <;> exact absurd hk (by decide)
    all_goals
      rw [hq] at hr
      simp only [set_profile, Option.some.injEq] at hr
      subst hr
      rfl
  · intro r hr
    rcases hr with hr | hr
    · rcases probe_mpeg_ps_es_cases ctx codecs mpeg_ps_pal mpeg_ps_pal_xac3 mpeg_ps_ntsc
          mpeg_ps_ntsc_xac3 with hq | ⟨_, hq | hq⟩ | ⟨_, _, hq | hq⟩ <;>
        rw [probe_mpeg_ps, hq] at hr
      · exact absurd hr (by simp)
      all_goals
        simp only [set_profile, Option.some.injEq] at hr
        subst hr
        rfl
    · rcases probe_mpeg_ps_es_cases ctx codecs mpeg_es_pal mpeg_es_pal_xac3 mpeg_es_ntsc
          mpeg_es_ntsc_xac3 with hq | ⟨_, hq | hq⟩ | ⟨_, _, hq | hq⟩ <;>
        rw [probe_mpeg_es, hq] at hr
      · exact absurd hr (by simp)
      all_goals
        simp only [set_profile, Option.some.injEq] at hr
        subst hr
        rfl

/-- Witness of C38: the record of the Europe scenario, returned for a transport
stream with valid timestamp, has the MIME type video/vnd.dlna.mpeg-tts. -/
theorem mpeg2_mime_by_container_witness :
    mpeg_ts_sd_eu_t.mime =
      c_string.literal "video/vnd.dlna.mpeg-tts" :=
  (mpeg2_mime_by_container
    (av_descriptor CT_MPEG_TRANSPORT_STREAM_DLNA 8000000 ac3_720x576_codecs.ac
      ac3_720x576_codecs.vs "movie.ts")
    ac3_720x576_codecs).2.1 CT_MPEG_TRANSPORT_STREAM_DLNA
    mpeg_ts_sd_eu_t (Or.inl rfl) (by decide)

/-! ## Properties of `upnp_find_service_action` -/

/-- The inner loop finds the first action with the requested name. -/
theorem upnp_find_service_action_actions_eq (actions : List upnp_service_action_t)
    (ActionName : String) :
    upnp_find_service_action_actions actions ActionName =
      actions.find? (fun a => decide (a.name = ActionName)) := by
  induction actions with
  | nil => rfl
  | cons a rest ih =>
    by_cases h : a.name = ActionName
    · simp [upnp_find_service_action_actions, List.find?_cons, h]
    · simp [upnp_find_service_action_actions, List.find?_cons, h, ih]

/-- The outer loop decides on the first service with the requested id. -/
theorem upnp_find_service_action_services_eq (services : List upnp_service_t)
    (ServiceID ActionName : String) :
    upnp_find_service_action_services services ServiceID ActionName =
      match services.find? (fun s => decide (s.id = ServiceID)) with
      | none => (DLNA_ST_ERROR, none, none)
      | some s =>
        match s.actions.find? (fun a => decide (a.name = ActionName)) with
        | some a => (DLNA_ST_OK, some s, some a)
        | none => (DLNA_ST_ERROR, some s, none) := by
  induction services with
  | nil => rfl
  | cons s rest ih =>
    by_cases h : s.id = ServiceID
    · simp [upnp_find_service_action_services, List.find?_cons, h,
        upnp_find_service_action_actions_eq]
    · simp [upnp_find_service_action_services, List.find?_cons, h, ih]

/-- C39: `upnp_find_service_action` returns `DLNA_ST_OK` if and only if the
request has an action name, its ServiceID is the id of a registered service,
and its ActionName is the name of one of the actions of the first such
service; on success the outputs are that service and its first action with
that name. On failure it returns `DLNA_ST_ERROR` with the action output `NULL`,
and the service output is not `NULL` exactly when the lookup found the service
id and not the action name. -/
theorem upnp_find_service_action_lookup (services : List upnp_service_t)
    (ar : Option Upnp_Action_Request) :
    ((upnp_find_service_action services ar).1 = DLNA_ST_OK ↔
      ∃ req name s, ar = some req ∧ req.ActionName = some name ∧
        services.find? (fun s => decide (s.id = req.ServiceID)) = some s ∧
        ∃ a ∈ s.actions, a.name = name) ∧
    (∀ req name s a, ar = some req → req.ActionName = some name →
      services.find? (fun s => decide (s.id = req.ServiceID)) = some s →
      s.actions.find? (fun a => decide (a.name = name)) = some a →
      upnp_find_service_action services ar = (DLNA_ST_OK, some s, some a)) ∧
    ((upnp_find_service_action services ar).1 ≠ DLNA_ST_OK →
      (upnp_find_service_action services ar).1 = DLNA_ST_ERROR ∧
      (upnp_find_service_action services ar).2.2 = none ∧
      ((upnp_find_service_action services ar).2.1 ≠ none ↔
        ∃ req name s, ar = some req ∧ req.ActionName = some name ∧
          services.find? (fun s => decide (s.id = req.ServiceID)) = some s ∧
          ∀ a ∈ s.actions, a.name ≠ name)) := by
  cases ar with
  | none =>
    refine ⟨?_, ?_, ?_⟩
    · constructor
      · intro h
        exact dlna_status_code_t.noConfusion h
      · rintro ⟨req, name, s, hreq, _⟩
        exact absurd hreq (by simp)
    · intro req name s a hreq
      exact absurd hreq (by simp)
    · intro _
      refine ⟨rfl, rfl, ?_⟩
      constructor
      · intro h
        exact absurd rfl h
      · rintro ⟨req, name, s, hreq, _⟩
        exact absurd hreq (by simp)
  | some req =>
    cases hn : req.ActionName with
    | none =>
      have hres : upnp_find_service_action services (some req) =
          (DLNA_ST_ERROR, none, none) := by
        simp only [upnp_find_service_action, hn]
      rw [hres]
      refine ⟨?_, ?_, ?_⟩
      · constructor
        · intro h
          exact dlna_status_code_t.noConfusion h
        · rintro ⟨req2, name2, s2, hreq, hname, _⟩
          cases hreq
          rw [hn] at hname
          exact absurd hname (by simp)
      · intro req2 name2 s2 a2 hreq hname
        cases hreq
        rw [hn] at hname
        exact absurd hname (by simp)
      · intro _
        refine ⟨rfl, rfl, ?_⟩
        constructor
        · intro h
          exact absurd rfl h
        · rintro ⟨req2, name2, s2, hreq, hname, _⟩
          cases hreq
          rw [hn] at hname
          exact absurd hname (by simp)
    | some name =>
      cases hs : services.find? (fun s => decide (s.id = req.ServiceID)) with
      | none =>
        have hres : upnp_find_service_action services (some req) =
            (DLNA_ST_ERROR, none, none) := by
          simp only [upnp_find_service_action, hn, upnp_find_service_action_services_eq, hs]
        rw [hres]
        refine ⟨?_, ?_, ?_⟩
        · constructor
          · intro h
            exact dlna_status_code_t.noConfusion h
          · rintro ⟨req2, name2, s2, hreq, _, hfind, _⟩
            cases hreq
            rw [hs] at hfind
            exact absurd hfind (by simp)
        · intro req2 name2 s2 a2 hreq _ hfind
          cases hreq
          rw [hs] at hfind
          exact absurd hfind (by simp)
        · intro _
          refine ⟨rfl, rfl, ?_⟩
          constructor
          · intro h
            exact absurd rfl h
          · rintro ⟨req2, name2, s2, hreq, _, hfind, _⟩
            cases hreq
            rw [hs] at hfind
            exact absurd hfind (by simp)
      | some s =>
        cases ha : s.actions.find? (fun a => decide (a.name = name)) with
        | none =>
          have hall : ∀ a ∈ s.actions, a.name ≠ name := by
            intro a hmem
            have := List.find?_eq_none.mp ha a hmem
            simpa using this
          have hres : upnp_find_service_action services (some req) =
              (DLNA_ST_ERROR, some s, none) := by
            simp only [upnp_find_service_action, hn, upnp_find_service_action_services_eq,
              hs, ha]
          rw [hres]
          refine ⟨?_, ?_, ?_⟩
          · constructor
            · intro h
              exact dlna_status_code_t.noConfusion h
            · rintro ⟨req2, name2, s2, hreq, hname, hfind, a, hmem, hm⟩
              cases hreq
              rw [hn] at hname
              cases hname
              rw [hs] at hfind
              cases hfind
              exact absurd hm (hall a hmem)
          · intro req2 name2 s2 a2 hreq hname hfind hfa
            cases hreq
            rw [hn] at hname
            cases hname
            rw [hs] at hfind
            cases hfind
            rw [ha] at hfa
            exact absurd hfa (by simp)
          · intro _
            refine ⟨rfl, rfl, ?_⟩
            constructor
            · intro _
              exact ⟨req, name, s, rfl, hn, hs, hall⟩
            · intro _
              simp
        | some a =>
          have hmem : a ∈ s.actions := List.mem_of_find?_eq_some ha
          have hname : a.name = name := by
            have := List.find?_some ha
            simpa using this
          have hres : upnp_find_service_action services (some req) =
              (DLNA_ST_OK, some s, some a) := by
            simp only [upnp_find_service_action, hn, upnp_find_service_action_services_eq,
              hs, ha]
          rw [hres]
          refine ⟨?_, ?_, ?_⟩
          · constructor
            · intro _
              exact ⟨req, name, s, rfl, hn, hs, a, hmem, hname⟩
            · intro _
              rfl
          · intro req2 name2 s2 a2 hreq hname2 hfind hfa
            cases hreq
            rw [hn] at hname2
            cases hname2
            rw [hs] at hfind
            cases hfind
            rw [ha] at hfa
            cases hfa
            rfl
          · intro hne
            exact absurd rfl hne

/-- Witness of C39: the request for the action Search of the content directory
finds the second service of the table and its second action; the request for
an unknown action of that service fails with the service set. -/
theorem upnp_find_service_action_lookup_witness :
    upnp_find_service_action example_services
        (some { ActionName := some "Search",
                ServiceID := "urn:upnp-org:serviceId:ContentDirectory" }) =
      (DLNA_ST_OK,
        some { id := "urn:upnp-org:serviceId:ContentDirectory",
               type := "urn:schemas-upnp-org:service:ContentDirectory:1",
               actions := [ { name := "Browse", cb := 2 }, { name := "Search", cb := 3 } ] },
        some { name := "Search", cb := 3 }) :=
  (upnp_find_service_action_lookup example_services
    (some { ActionName := some "Search",
            ServiceID := "urn:upnp-org:serviceId:ContentDirectory" })).2.1
    { ActionName := some "Search", ServiceID := "urn:upnp-org:serviceId:ContentDirectory" }
    "Search"
    { id := "urn:upnp-org:serviceId:ContentDirectory",
      type := "urn:schemas-upnp-org:service:ContentDirectory:1",
      actions := [ { name := "Browse", cb := 2 }, { name := "Search", cb := 3 } ] }
    { name := "Search", cb := 3 } rfl rfl (by decide) (by decide)

end Libdlna
